import Mathlib

/-!
Shallow embedding of the ABR (adaptive bitrate) streaming core of the
`abr-video-player` repository, together with theorems settling the claims of
the specification against the source.

Conventions used throughout the embedding:

* JavaScript `number` values are modelled as `ℚ` wherever the source performs
  plain arithmetic and comparisons, and as `ℝ` where the source computes with
  `Math.log` / `Math.exp` / `Math.pow` (the BOLA utilities and the EWMA).
* A `number` field that the source can set to `NaN` (and tests with `isNaN`)
  is modelled as an `Option`, with `none` playing the role of `NaN`.
* `Assert.assert` (src/utils/assertion.ts) throws an `AssertionError` when the
  condition is false and assertions are enabled, which is the default
  (`AssertConfig.enabled = true`); it is modelled in the `Except` monad.
* Mutation of private class state is modelled by explicit state passing:
  every method is a function from the old state (plus the values it reads
  from collaborating components, passed as arguments) to the new state and
  the events it publishes.
-/

set_option maxHeartbeats 2000000

/-- Video rendition descriptor (src/src/Types.ts): only the fields the claims
exercise (stable identifier and bitrate in bits per second) are carried. -/
structure VideoRepresentation where
  id : String
  bitrate : ℚ
  deriving Repr, DecidableEq

/-- Media segment reference (src/src/Dash/Segment/SegmentReference.ts):
`segmentNumber`, time interval `[startTime, endTime)` in seconds. -/
structure SegmentReference where
  segmentNumber : ℕ
  startTime : ℚ
  endTime : ℚ
  deriving Repr, DecidableEq

/-- Duration accessor of SegmentReference (`get duration`). -/
def SegmentReference.duration (ref : SegmentReference) : ℚ :=
  ref.endTime - ref.startTime

/-- JavaScript `Math.round`: round half toward positive infinity. -/
def jsRound (x : ℚ) : ℤ :=
  ⌊x + 1 / 2⌋

/-- JavaScript `Array.prototype.findIndex`: index of the first element
satisfying the predicate, `-1` when there is none. -/
def jsFindIndex {α : Type} (p : α → Bool) (l : List α) : ℤ :=
  match l.findIdx? p with
  | some i => (i : ℤ)
  | none => -1

/-- Insertion step of `jsSortBy`: `x` (originally earlier) goes in front of
the first element that is not strictly before it. -/
def jsInsertBy {α : Type} (lt : α → α → Bool) (x : α) : List α → List α
  | [] => [x]
  | y :: ys => if lt y x then y :: jsInsertBy lt x ys else x :: y :: ys

/-- JavaScript `Array.prototype.sort` with a comparator inducing the strict
order `lt`: a stable sort (stability is guaranteed by the language). -/
def jsSortBy {α : Type} (lt : α → α → Bool) : List α → List α
  | [] => []
  | x :: xs => jsInsertBy lt x (jsSortBy lt xs)

/-- Model of `Assert.assert` (src/src/utils/assertion.ts lines 168-179): with
assertions enabled (the default, `AssertConfig.enabled = true`), a false
condition throws an `AssertionError`. -/
def Assert.assert (condition : Bool) : Except String Unit :=
  if condition then Except.ok () else Except.error "AssertionError"

/-- Model of `Assert.assertDefined`: throws an `AssertionError` on
`null`/`undefined` (modelled by `none`), otherwise returns the value. -/
def Assert.assertDefined {α : Type} (value : Option α) : Except String α :=
  match value with
  | some v => Except.ok v
  | none => Except.error "AssertionError"

/-! ## Emwa (src/src/Ewma.ts)

Exponentially weighted moving average.  `alpha` is fixed at construction from
the half-life; `estimate` and `totalWeight` are the mutable state. -/

structure Emwa where
  alpha : ℝ
  estimate : ℝ
  totalWeight : ℝ

/-- Constructor `new Emwa(halfLife)`: `alpha = Math.exp(Math.log(0.5) / halfLife)`,
estimate and total weight start at 0. -/
noncomputable def Emwa.create (halfLife : ℝ) : Emwa :=
  { alpha := Real.exp (Real.log (1 / 2) / halfLife), estimate := 0, totalWeight := 0 }

/-- `Emwa.sample(weight, bandwidth)` (src/src/Ewma.ts lines 28-37).  In the
real-number model `newEstimate` is never `NaN`, so the source's
`if (!isNaN(newEstimate))` guard is always taken. -/
noncomputable def Emwa.sample (e : Emwa) (weight bandwidth : ℝ) : Emwa :=
  let adjAlpha := e.alpha ^ weight
  let newEstimate := bandwidth * (1 - adjAlpha) + adjAlpha * e.estimate
  { e with estimate := newEstimate, totalWeight := e.totalWeight + weight }

/-- `Emwa.getEstimate()` (src/src/Ewma.ts lines 39-42). -/
noncomputable def Emwa.getEstimate (e : Emwa) : ℝ :=
  let zeroFactor := 1 - e.alpha ^ e.totalWeight
  e.estimate / zeroFactor

/-! ## BandwidthEstimator (src/src/Dash/Segment/ManifestParser.ts lines 580-740) -/

structure BandwidthEstimator where
  fast : Emwa
  slow : Emwa
  bytesSampled : ℚ
  sampleCount : ℕ

/-- `#MIN_TOTAL_BYTES = 128e3` (128 kB). -/
def BandwidthEstimator.MIN_TOTAL_BYTES : ℚ := 128000

/-- `#MIN_BYTES = 16e3` (16 kB): samples below this size are discarded. -/
def BandwidthEstimator.MIN_BYTES : ℚ := 16000

/-- Freshly constructed estimator: `#fast = new Emwa(2)`, `#slow = new Emwa(5)`,
no bytes and no samples yet. -/
noncomputable def BandwidthEstimator.create : BandwidthEstimator :=
  { fast := Emwa.create 2, slow := Emwa.create 5, bytesSampled := 0, sampleCount := 0 }

/-- `BandwidthEstimator.sample(durationMs, numBytes)` (lines 623-642).  The
source asserts `durationMs > 0 && Number.isFinite(durationMs)` and likewise
for `numBytes`; in the `ℚ` model every value is finite, so only positivity
remains.  Samples smaller than `#MIN_BYTES` return before any state change. -/
noncomputable def BandwidthEstimator.sample (est : BandwidthEstimator)
    (durationMs numBytes : ℚ) : Except String BandwidthEstimator := do
  Assert.assert (decide (0 < durationMs))
  Assert.assert (decide (0 < numBytes))
  if numBytes < BandwidthEstimator.MIN_BYTES then
    return est
  else
    let bandwidth := (8000 * numBytes) / durationMs
    let weight := durationMs / 1000
    return { est with
      sampleCount := est.sampleCount + 1
      bytesSampled := est.bytesSampled + numBytes
      fast := est.fast.sample (weight : ℝ) (bandwidth : ℝ)
      slow := est.slow.sample (weight : ℝ) (bandwidth : ℝ) }

/-- `BandwidthEstimator.reset()` (lines 730-735): sets `#sampleCount = 0` and
`#bytesSampled = 0`; no other field is assigned. -/
def BandwidthEstimator.reset (est : BandwidthEstimator) : BandwidthEstimator :=
  { est with sampleCount := 0, bytesSampled := 0 }

/-! ## BlacklistController (src/src/Controller/ScheduleController.ts lines 481-536) -/

structure BlacklistController where
  blacklistedUrls : List String
  blacklistedSegmentNumbers : List ℕ
  deriving Repr, DecidableEq

/-- `addToUrlBlacklist(url)` (lines 486-493). -/
def BlacklistController.addToUrlBlacklist (b : BlacklistController) (url : String) :
    Except String BlacklistController := do
  Assert.assert (decide (0 < url.length))
  if b.blacklistedUrls.contains url then
    return b
  else
    return { b with blacklistedUrls := b.blacklistedUrls ++ [url] }

/-- `addSegNumToBlacklist(segNum)` (lines 495-502). -/
def BlacklistController.addSegNumToBlacklist (b : BlacklistController) (segNum : ℕ) :
    BlacklistController :=
  if b.blacklistedSegmentNumbers.contains segNum then b
  else { b with blacklistedSegmentNumbers := b.blacklistedSegmentNumbers ++ [segNum] }

/-- `reset()` (lines 504-507): the source body is two assignments, both of
which assign `this.#blacklistedUrls = []`; the segment-number list is never
assigned. -/
def BlacklistController.reset (b : BlacklistController) : BlacklistController :=
  let b1 := { b with blacklistedUrls := ([] : List String) }
  { b1 with blacklistedUrls := ([] : List String) }

/-- `containsUrl(url)` (lines 517-520). -/
def BlacklistController.containsUrl (b : BlacklistController) (url : String) :
    Except String Bool := do
  Assert.assert (decide (0 < url.length))
  return b.blacklistedUrls.contains url

/-- `containsSegmentNumber(segNumb)` (lines 530-533); the
`Assert.assertDefined(segNumb)` of the source always passes for a `ℕ`
argument and is omitted. -/
def BlacklistController.containsSegmentNumber (b : BlacklistController) (segNumb : ℕ) :
    Bool :=
  b.blacklistedSegmentNumbers.contains segNumb

/-! ## DroppedFramesAbr (src/src/Controller/abr/DroppedFramesAbr.ts)

The strategy keys its `#downgrades` map by stream id; `chooseRepresentation`
always uses `streamId = 0`, so a single optional record suffices. -/

/-- Per-stream downgrade tracking record. -/
structure DowngradeRecord where
  count : ℕ
  lastDowngradeTime : ℚ
  deriving Repr, DecidableEq

structure DroppedFramesAbrState where
  downgrades : Option DowngradeRecord
  representations : List VideoRepresentation
  deriving Repr, DecidableEq

/-- Result of `droppedFramesHistory.getFrameHistory(streamId, representationId)`
as read by the strategy: accumulated dropped and total frame counts for the
currently rendered representation. -/
structure FrameHistory where
  droppedVideoFrames : ℚ
  totalVideoFrames : ℚ
  deriving Repr, DecidableEq

/-- `#DROPPED_FRAMES_PERCENTAGE_THRESHOLD = 0.15`. -/
def DroppedFramesAbr.DROPPED_FRAMES_PERCENTAGE_THRESHOLD : ℚ := 15 / 100

/-- `#MINIMUM_SAMPLE_SIZE = 375`. -/
def DroppedFramesAbr.MINIMUM_SAMPLE_SIZE : ℚ := 375

/-- `#MAX_CONSECUTIVE_DOWNGRADES = 2`. -/
def DroppedFramesAbr.MAX_CONSECUTIVE_DOWNGRADES : ℕ := 2

/-- `#DOWNGRADE_COOLDOWN_MS = 10000`. -/
def DroppedFramesAbr.DOWNGRADE_COOLDOWN_MS : ℚ := 10000

/-- `#shouldLowerResolution` (DroppedFramesAbr.ts lines 58-118): decides
whether to emergency-downshift and updates the downgrade tracking record.
`videoQuality` is the frame history of the currently rendered representation
and `now` is `Date.now()`. -/
def DroppedFramesAbr.shouldLowerResolution (st : DroppedFramesAbrState)
    (videoQuality : FrameHistory) (now : ℚ) : Bool × DroppedFramesAbrState :=
  if videoQuality.totalVideoFrames < DroppedFramesAbr.MINIMUM_SAMPLE_SIZE then
    (false, st)
  else
    let blocked : Bool :=
      match st.downgrades with
      | some streamDowngrades =>
        decide (now - streamDowngrades.lastDowngradeTime <
            DroppedFramesAbr.DOWNGRADE_COOLDOWN_MS) ||
          decide (streamDowngrades.count ≥ DroppedFramesAbr.MAX_CONSECUTIVE_DOWNGRADES)
      | none => false
    if blocked then (false, st)
    else
      let dropRate := videoQuality.droppedVideoFrames / videoQuality.totalVideoFrames
      if dropRate > DroppedFramesAbr.DROPPED_FRAMES_PERCENTAGE_THRESHOLD then
        let newRecord :=
          match st.downgrades with
          | some streamDowngrades =>
            { count := streamDowngrades.count + 1, lastDowngradeTime := now }
          | none => { count := 1, lastDowngradeTime := now }
        (true, { st with downgrades := some newRecord })
      else if dropRate < DroppedFramesAbr.DROPPED_FRAMES_PERCENTAGE_THRESHOLD / 2 then
        (false, { st with downgrades := none })
      else
        (false, st)

/-- `DroppedFramesAbr.chooseRepresentation` (lines 30-50): asserts that a
current representation and a non-empty representation list exist, then, when
`#shouldLowerResolution` fires, returns the next lower representation (or the
lowest when the current one is first or absent from the list). -/
def DroppedFramesAbr.chooseRepresentation (st : DroppedFramesAbrState)
    (currentRepresentation : Option VideoRepresentation)
    (videoQuality : FrameHistory) (now : ℚ) :
    Except String (Option VideoRepresentation × DroppedFramesAbrState) := do
  Assert.assert (currentRepresentation.isSome && !st.representations.isEmpty)
  let (lower, st1) := DroppedFramesAbr.shouldLowerResolution st videoQuality now
  if lower then
    let currentId := (currentRepresentation.map (·.id)).getD ""
    match st1.representations.findIdx? (fun r => r.id = currentId) with
    | some currentIndex =>
      if 0 < currentIndex then
        return (st1.representations.get? (currentIndex - 1), st1)
      else
        return (st1.representations.get? 0, st1)
    | none =>
      -- `findIndex` returns -1; `currentIndex > 0` is false, so `reps[0]`.
      return (st1.representations.get? 0, st1)
  else
    return (none, st1)

/-! ## AbrController (src/src/Controller/abr/AbrController.ts) -/

inductive AbrStrategyType
  | Bandwidth
  | Buffer
  | DroppedFrames
  deriving Repr, DecidableEq

/-- Configuration record (`AbrConfig`); defaults are in
`AbrController.DEFAULT_CONFIG` below. -/
structure AbrConfig where
  minBufferLevel : ℚ
  maxBufferLevel : ℚ
  qualityChangeThreshold : ℚ
  switchCooldownPeriod : ℚ
  allowSmoothing : Bool
  smoothingFactor : ℚ
  abrEnabled : Bool
  deriving Repr, DecidableEq

/-- `AbrController.DEFAULT_CONFIG` (AbrController.ts lines 32-42), omitting
the string- and delay-valued entries the claims do not exercise. -/
def AbrController.DEFAULT_CONFIG : AbrConfig :=
  { minBufferLevel := 10
    maxBufferLevel := 90
    qualityChangeThreshold := 2 / 10
    switchCooldownPeriod := 5000
    allowSmoothing := true
    smoothingFactor := 1 / 2
    abrEnabled := true }

structure AbrControllerState where
  config : AbrConfig
  smoothingActive : Bool
  currentStrategy : AbrStrategyType
  lastSwitchTime : ℚ
  filteredRepresentations : List VideoRepresentation
  /-- Quality history entries `{timestamp, quality}`; the only writer
  (`#onQualityChangeRendered`) is commented out in the source, so the list
  stays empty at runtime, but the oscillation logic below still reads it. -/
  qualityHistory : List (ℚ × ℚ)
  deriving Repr, DecidableEq

/-- Values `checkPlaybackQuality` reads from collaborators on one invocation:
`Date.now()`, the current representation (playbackController), the buffer
level (bufferController), the frame history consumed by the DroppedFrames
strategy, and the outcomes of the Buffer and Bandwidth strategies'
`chooseRepresentation()` (those two strategies are embedded separately;
their outcomes enter here as data). -/
structure AbrEnv where
  now : ℚ
  currentRepresentation : Option VideoRepresentation
  bufferLevel : ℚ
  frameHistory : FrameHistory
  bufferChoice : Option VideoRepresentation
  bandwidthChoice : Option VideoRepresentation

/-- Events published by the controller. -/
inductive AbrEvent
  | qualityChangeRequested (videoRepresentation : VideoRepresentation)
      (switchReason : AbrStrategyType)
  deriving Repr, DecidableEq

/-- `#detectOscillation` (AbrController.ts lines 207-216): with fewer than 4
history entries, no oscillation; otherwise the last four entries must
alternate between the first and the second of them. -/
def AbrController.detectOscillation (st : AbrControllerState) : Bool :=
  if st.qualityHistory.length < 4 then false
  else
    let recentSwitches := st.qualityHistory.drop (st.qualityHistory.length - 4)
    match recentSwitches with
    | [a, b, c, d] =>
      decide (a.2 = a.2) && decide (b.2 = b.2) && decide (c.2 = a.2) && decide (d.2 = b.2)
    | _ => false

/-- `#smoothQualitySelection` (AbrController.ts lines 218-252).  JavaScript
`findIndex` yields `-1` when absent, so indices are modelled in `ℤ`; the
final `availableQualities[smoothedIndex]` is `undefined` when the index is
out of range, which would fault downstream — modelled as an error. -/
def AbrController.smoothQualitySelection (st : AbrControllerState)
    (current chosen : VideoRepresentation) : Except String VideoRepresentation :=
  if !st.smoothingActive then Except.ok chosen
  else
    let availableQualities := st.filteredRepresentations
    let currentIndex : ℤ :=
      jsFindIndex (fun r => decide (r.id = current.id)) availableQualities
    if currentIndex == (-1 : ℤ) then Except.ok chosen
    else if AbrController.detectOscillation st then
      if chosen.bitrate > current.bitrate then
        match availableQualities.get? currentIndex.toNat with
        | some rep => Except.ok rep
        | none => Except.error "TypeError"
      else Except.ok chosen
    else
      let targetIndex : ℤ :=
        jsFindIndex (fun r => decide (r.id = chosen.id)) availableQualities
      let smoothedIndex : ℤ :=
        jsRound ((currentIndex : ℚ) +
          ((targetIndex : ℚ) - (currentIndex : ℚ)) * st.config.smoothingFactor)
      if 0 ≤ smoothedIndex then
        match availableQualities.get? smoothedIndex.toNat with
        | some rep => Except.ok rep
        | none => Except.error "TypeError"
      else Except.error "TypeError"

/-- `AbrController.checkPlaybackQuality` (AbrController.ts lines 254-359).
Returns whether a quality change was triggered, the updated controller and
DroppedFrames-strategy states, and the published events.  The cooldown gate
is the first statement of the method; the DroppedFrames strategy is consulted
only after it (and after the `abrEnabled` and current-representation
checks). -/
def AbrController.checkPlaybackQuality (st : AbrControllerState)
    (dfState : DroppedFramesAbrState) (env : AbrEnv) :
    Except String (Bool × AbrControllerState × DroppedFramesAbrState × List AbrEvent) := do
  if env.now - st.lastSwitchTime < st.config.switchCooldownPeriod then
    return (false, st, dfState, [])
  else if !st.config.abrEnabled then
    return (false, st, dfState, [])
  else
    match env.currentRepresentation with
    | none => return (false, st, dfState, [])
    | some currentRepresentation => do
      -- Check DroppedFrames strategy first (emergency downscaling)
      let (dfChoice, dfState1) ←
        DroppedFramesAbr.chooseRepresentation dfState (some currentRepresentation)
          env.frameHistory env.now
      let (usedStrategy, chosenRepresentation) :=
        match dfChoice with
        | some rep => (AbrStrategyType.DroppedFrames, some rep)
        | none =>
          if env.bufferLevel ≥ st.config.minBufferLevel then
            (AbrStrategyType.Buffer, env.bufferChoice)
          else
            (AbrStrategyType.Bandwidth, env.bandwidthChoice)
      match chosenRepresentation with
      | none => return (false, st, dfState1, [])
      | some chosen0 =>
        if currentRepresentation.id = chosen0.id then
          return (false, st, dfState1, [])
        else do
          let chosen1 ←
            if st.smoothingActive then
              AbrController.smoothQualitySelection st currentRepresentation chosen0
            else
              pure chosen0
          if st.smoothingActive ∧ currentRepresentation.id = chosen1.id then
            return (false, st, dfState1, [])
          else if currentRepresentation.id = chosen1.id then
            -- final validation before triggering
            return (false, st, dfState1, [])
          else
            return (true,
              { st with currentStrategy := usedStrategy, lastSwitchTime := env.now },
              dfState1,
              [AbrEvent.qualityChangeRequested chosen1 usedStrategy])

/-! ## StallDetector (src/unnamed/part_000) -/

/-- Player contexts affecting stall detection (`PlayerContext`). -/
inductive PlayerContext
  | STARTUP
  | SEEKING
  | QUALITY_SWITCHING
  | NORMAL_PLAYBACK
  | BUFFERING
  deriving Repr, DecidableEq

/-- `GRACE_PERIODS` map (part_000 lines 23-29), in milliseconds. -/
def StallDetector.GRACE_PERIODS : PlayerContext → ℚ
  | PlayerContext.STARTUP => 2000
  | PlayerContext.SEEKING => 2000
  | PlayerContext.QUALITY_SWITCHING => 1500
  | PlayerContext.NORMAL_PLAYBACK => 0
  | PlayerContext.BUFFERING => 3000

/-- `STALL_THRESHOLD_MS = 250`. -/
def StallDetector.STALL_THRESHOLD_MS : ℚ := 250

/-- `CONSECUTIVE_CHECKS_THRESHOLD = 3`. -/
def StallDetector.CONSECUTIVE_CHECKS_THRESHOLD : ℕ := 3

/-- `CHECK_INTERVAL_MS = 100`. -/
def StallDetector.CHECK_INTERVAL_MS : ℚ := 100

/-- `#historySize = 5`. -/
def StallDetector.historySize : ℕ := 5

/-- `HTMLMediaElement.HAVE_ENOUGH_DATA = 4`. -/
def StallDetector.HAVE_ENOUGH_DATA : ℕ := 4

/-- `HTMLMediaElement.NETWORK_LOADING = 2`. -/
def StallDetector.NETWORK_LOADING : ℕ := 2

structure StallDetectorState where
  lastPlaybackTime : ℚ
  lastCheckTime : ℚ
  consecutiveStallChecks : ℕ
  isStalled : Bool
  lastReadyState : ℕ
  currentContext : PlayerContext
  contextStartTime : ℚ
  hasPlaybackStarted : Bool
  stallHistory : List Bool
  deriving Repr, DecidableEq

/-- Values `detectStall` reads from the video element and the wall clock on
one invocation, plus the two optional callbacks injected at construction
(`isPositionBuffered`, `isDownloadingForPosition`, wired by the
GapController to the buffer state). -/
structure StallVideoEnv where
  currentTime : ℚ
  now : ℚ
  paused : Bool
  seeking : Bool
  ended : Bool
  readyState : ℕ
  networkState : ℕ
  isPositionBuffered : Option (ℚ → Bool)
  isDownloadingForPosition : Option (ℚ → Bool)

/-- `StallDetector.reset()` (part_000 lines 338-345). -/
def StallDetector.reset (st : StallDetectorState) (env : StallVideoEnv) :
    StallDetectorState :=
  { st with
    lastPlaybackTime := env.currentTime
    lastCheckTime := env.now
    consecutiveStallChecks := 0
    isStalled := false
    lastReadyState := env.readyState
    stallHistory := [] }

/-- `#updateStallHistory` (lines 290-295): push, then drop the oldest entry
once the history exceeds `#historySize`. -/
def StallDetector.updateStallHistory (stallHistory : List Bool) (isStalled : Bool) :
    List Bool :=
  let pushed := stallHistory ++ [isStalled]
  if pushed.length > StallDetector.historySize then pushed.drop 1 else pushed

/-- `#isStallPatternConfirmed` (lines 297-306): with fewer than 3 entries the
current detection is trusted; otherwise at least 2 of the last 3 checks must
have been stalls. -/
def StallDetector.isStallPatternConfirmed (stallHistory : List Bool) : Bool :=
  if stallHistory.length < 3 then true
  else
    let recentStalls := ((stallHistory.drop (stallHistory.length - 3)).filter id).length
    recentStalls ≥ 2

/-- `#shouldIgnoreStall` (part_000 lines 255-288).  Inside the
position-is-buffered block the source returns `true` when a download covers
the position and `false` when `readyState ≥ HAVE_ENOUGH_DATA`; otherwise it
falls through to the startup and network checks.  When the position is NOT
buffered the block is skipped entirely — a covering download is never
consulted on that path. -/
def StallDetector.shouldIgnoreStall (st : StallDetectorState) (env : StallVideoEnv)
    (currentTime : ℚ) : Bool :=
  let bufferedBlock : Option Bool :=
    match env.isPositionBuffered with
    | some isBuffered =>
      if isBuffered currentTime then
        if (match env.isDownloadingForPosition with
            | some isDownloading => isDownloading currentTime
            | none => false) then
          some true
        else if env.readyState ≥ StallDetector.HAVE_ENOUGH_DATA then
          some false
        else
          none
      else none
    | none => none
  match bufferedBlock with
  | some b => b
  | none =>
    if currentTime < 1 / 10 && !st.hasPlaybackStarted then true
    else if env.networkState == StallDetector.NETWORK_LOADING then
      decide (st.currentContext ≠ PlayerContext.NORMAL_PLAYBACK)
    else false

/-- `StallDetector.detectStall` (part_000 lines 163-253).  Returns the
boolean result of the call and the updated detector state.  Mirrors the
source control flow: pause/seek/end reset, grace period, readyState
bookkeeping, the 100 ms sampling gate, candidate suppression via
`#shouldIgnoreStall`, history update, and stall confirmation (on the
newly-confirmed path the source returns before refreshing
`#lastCheckTime`). -/
def StallDetector.detectStall (st : StallDetectorState) (env : StallVideoEnv) :
    Bool × StallDetectorState :=
  let currentTime := env.currentTime
  let currentCheckTime := env.now
  if env.paused || env.seeking || env.ended then
    (false, StallDetector.reset st env)
  else
    let gracePeriod := StallDetector.GRACE_PERIODS st.currentContext
    let timeSinceContextChange := currentCheckTime - st.contextStartTime
    if timeSinceContextChange < gracePeriod then
      (false, st)
    else
      let st1 := { st with lastReadyState := env.readyState }
      let playbackDelta := currentTime - st1.lastPlaybackTime
      let timeDelta := currentCheckTime - st1.lastCheckTime
      if timeDelta ≥ StallDetector.CHECK_INTERVAL_MS then
        let isCurrentlyStalled : Bool :=
          if playbackDelta < 1 / 100 then
            !(StallDetector.shouldIgnoreStall st1 env currentTime)
          else false
        let st2 := { st1 with
          stallHistory := StallDetector.updateStallHistory st1.stallHistory isCurrentlyStalled }
        if isCurrentlyStalled then
          let st3 := { st2 with consecutiveStallChecks := st2.consecutiveStallChecks + 1 }
          let stallDuration := (st3.consecutiveStallChecks : ℚ) * StallDetector.CHECK_INTERVAL_MS
          let confirmedStall :=
            decide (stallDuration ≥ StallDetector.STALL_THRESHOLD_MS) &&
              decide (st3.consecutiveStallChecks ≥ StallDetector.CONSECUTIVE_CHECKS_THRESHOLD) &&
              StallDetector.isStallPatternConfirmed st3.stallHistory
          if confirmedStall && !st3.isStalled then
            (true, { st3 with isStalled := true })
          else
            (st3.isStalled, { st3 with lastCheckTime := currentCheckTime })
        else
          (false, { st2 with
            lastPlaybackTime := currentTime
            consecutiveStallChecks := 0
            isStalled := false
            lastCheckTime := currentCheckTime })
      else
        (st1.isStalled, st1)

/-! ## BufferAbr — the BOLA controller (src/src/Controller/abr/BufferAbr.ts)

The utilities are computed with `Math.log`, so the BOLA quantities
(`utilities`, `gp`, `vp`, `placeholderBuffer` and the scores) live in `ℝ`;
everything the source compares with plain arithmetic stays in `ℚ`. -/

inductive BolaAlgorithmState
  | STARTUP
  | STEADY_STATE
  | ONE_BITRATE
  deriving Repr, DecidableEq

/-- `#SAFETY_FACTOR_INCREASE = 1.2` (hysteresis against up-switches). -/
noncomputable def BufferAbr.SAFETY_FACTOR_INCREASE : ℝ := 6 / 5

/-- `#SAFETY_FACTOR_DECREASE = 0.95`. -/
noncomputable def BufferAbr.SAFETY_FACTOR_DECREASE : ℝ := 19 / 20

/-- `#MINIMUM_BUFFER_PER_BITRATE_LEVEL = 2` seconds. -/
def BufferAbr.MINIMUM_BUFFER_PER_BITRATE_LEVEL : ℚ := 2

/-- `#THROUGHPUT_SAFETY_FACTOR = 0.9`. -/
def BufferAbr.THROUGHPUT_SAFETY_FACTOR : ℚ := 9 / 10

/-- Configuration of the BufferAbr instance: `#minBufferLevel`,
`#maxBufferLevel` and `#qualityChangeThreshold` are passed to the
constructor (from `AbrController.DEFAULT_CONFIG`: 10, 90, 0.2);
`#bufferTarget` is read from `bufferController.getBufferTarget() || 60` at
construction and updated on `BUFFER_TARGET_CHANGED` events. -/
structure BufferAbrConfig where
  minBufferLevel : ℚ
  maxBufferLevel : ℚ
  qualityChangeThreshold : ℚ
  bufferTarget : ℚ
  deriving Repr, DecidableEq

/-- Defaults in the shipped player: constructor arguments 10 / 90 / 0.2 and
buffering target 60 s. -/
def BufferAbr.defaultConfig : BufferAbrConfig :=
  { minBufferLevel := 10, maxBufferLevel := 90, qualityChangeThreshold := 2 / 10
    bufferTarget := 60 }

/-- `BolaState` (src/src/Types.ts, fields as assigned in
`BufferAbr.#initBolaState`).  `NaN`-able timestamp fields are `Option ℚ`;
`lastCallTimeMs` is initialised with `Date.now()` and only ever assigned
numbers, so it stays a plain `ℚ`. -/
structure BolaState where
  representations : List VideoRepresentation
  utilities : List ℝ
  gp : ℝ
  vp : ℝ
  placeholderBuffer : ℝ
  currentRepresentation : Option VideoRepresentation
  lastCallTimeMs : ℚ
  lastSegmentStart : Option ℚ
  lastSegmentRequestTimeMs : Option ℚ
  lastSegmentFinishTimeMs : Option ℚ
  algorithmState : BolaAlgorithmState
  lastSegmentDurationS : Option ℚ
  mostAdvancedSegmentStart : Option ℚ
  lastSegmentWasReplacement : Bool
  rebufferStartTimeMs : Option ℚ
  segmentCount : ℕ

/-- Placeholder representation standing in for JavaScript `undefined` when a
list access is out of range; the paths that use it are never taken under the
source's assertions. -/
def undefinedRep : VideoRepresentation := { id := "", bitrate := 0 }

/-- Utility vector of `#initBolaState` (BufferAbr.ts lines 437-443):
`Math.log(bitrate)`, then normalised so the lowest utility is 1
(`u − u₀ + 1`). -/
noncomputable def BufferAbr.bolaUtilities (representations : List VideoRepresentation) :
    List ℝ :=
  let utilities0 := representations.map (fun r => Real.log (r.bitrate : ℝ))
  utilities0.map (fun u => u - utilities0.headD 0 + 1)

/-- `bufferTime = max(bufferTimeDefault = 12, minBufferLevel + 2 · N)`
(BufferAbr.ts lines 445-450). -/
def BufferAbr.bolaBufferTime (cfg : BufferAbrConfig)
    (representations : List VideoRepresentation) : ℚ :=
  max 12
    (cfg.minBufferLevel +
      BufferAbr.MINIMUM_BUFFER_PER_BITRATE_LEVEL * (representations.length : ℚ))

/-- `gp = (u_last − 1) / (bufferTime / minBufferLevel − 1)` (lines 452-454). -/
noncomputable def BufferAbr.bolaGp (cfg : BufferAbrConfig)
    (representations : List VideoRepresentation) : ℝ :=
  ((BufferAbr.bolaUtilities representations).getLastD 0 - 1) /
    (((BufferAbr.bolaBufferTime cfg representations / cfg.minBufferLevel : ℚ) : ℝ) - 1)

/-- `vp = minBufferLevel / gp` (line 455). -/
noncomputable def BufferAbr.bolaVp (cfg : BufferAbrConfig)
    (representations : List VideoRepresentation) : ℝ :=
  (cfg.minBufferLevel : ℝ) / BufferAbr.bolaGp cfg representations

/-- `#initBolaState(representations)` (BufferAbr.ts lines 431-479).
Utilities, `gp` and `vp` are the named quantities above.  `existingState` is
the prior state's algorithm state, defaulting to STARTUP.  The
`Assert.assert(representations.length > 0)` of the source is recorded in the
callers. -/
noncomputable def BufferAbr.initBolaState (cfg : BufferAbrConfig)
    (priorAlgorithmState : Option BolaAlgorithmState)
    (representations : List VideoRepresentation) (nowMs : ℚ) : BolaState :=
  let utilities := BufferAbr.bolaUtilities representations
  let gp : ℝ := BufferAbr.bolaGp cfg representations
  let vp : ℝ := BufferAbr.bolaVp cfg representations
  { representations := representations
    utilities := utilities
    gp := gp
    vp := vp
    placeholderBuffer := 0
    currentRepresentation := none
    lastCallTimeMs := nowMs
    lastSegmentStart := none
    lastSegmentRequestTimeMs := none
    lastSegmentFinishTimeMs := none
    algorithmState := priorAlgorithmState.getD BolaAlgorithmState.STARTUP
    lastSegmentDurationS := none
    mostAdvancedSegmentStart := none
    lastSegmentWasReplacement := false
    rebufferStartTimeMs := none
    segmentCount := 0 }

/-- `#getMinBufferLevelForRepresentation(rep)` (BufferAbr.ts lines 558-589):
looks the representation up by id (`findIndex`); index 0 (and a failed
lookup) yield 0; otherwise
`max(0, vp·(u_i·r_{i−1} − u_{i−1}·r_i + gp·(r_{i−1} − r_i)) / (r_{i−1} − r_i))`
exactly as written in the source. -/
noncomputable def BufferAbr.getMinBufferLevelForRepresentation (st : BolaState)
    (rep : VideoRepresentation) : ℝ :=
  match st.representations.findIdx? (fun r => decide (r.id = rep.id)) with
  | none => 0
  | some repIndex =>
    if repIndex = 0 then 0
    else
      let util_i := st.utilities.getD repIndex 0
      let util_prev := st.utilities.getD (repIndex - 1) 0
      let bitrate_i : ℝ := ((st.representations.getD repIndex undefinedRep).bitrate : ℝ)
      let bitrate_prev : ℝ :=
        ((st.representations.getD (repIndex - 1) undefinedRep).bitrate : ℝ)
      let numerator :=
        st.vp *
          (util_i * bitrate_prev - util_prev * bitrate_i +
            st.gp * (bitrate_prev - bitrate_i))
      let denominator := bitrate_prev - bitrate_i
      max 0 (numerator / denominator)

/-- The BOLA score of representation index `i` at buffer level `b`, exactly
as computed inside `#getRepresentationFromBufferLevel` (lines 529-534):
`(vp·(u_i + gp − 1) − b) / bitrate_i`. -/
noncomputable def BufferAbr.bolaScore (st : BolaState) (i : ℕ) (bufferLevel : ℝ) : ℝ :=
  (st.vp * (st.utilities.getD i 0 + st.gp - 1) - bufferLevel) /
    ((st.representations.getD i undefinedRep).bitrate : ℝ)

/-- `#getRepresentationFromBufferLevel(bufferLevel)` (lines 512-556).
`bestScore` starts at `Number.NEGATIVE_INFINITY`, modelled as `none`; the
hysteresis multiplies the score by 1.2 above the current index and 0.95 at
or below it; ties prefer the later index (`>=`).  The chosen representation
is also stored into `currentRepresentation` (source line 553). -/
noncomputable def BufferAbr.getRepresentationFromBufferLevel (st : BolaState)
    (bufferLevel : ℝ) : VideoRepresentation × BolaState :=
  let currentRepIndex : ℤ :=
    match st.currentRepresentation with
    | some cur => jsFindIndex (fun r => decide (r.id = cur.id)) st.representations
    | none => -1
  let step := fun (acc : Option ℝ × ℕ) (i : ℕ) =>
    let score := BufferAbr.bolaScore st i bufferLevel
    let adjustedScore :=
      if 0 ≤ currentRepIndex then
        let switchingUp := (i : ℤ) > currentRepIndex
        let safetyFactor :=
          if switchingUp then BufferAbr.SAFETY_FACTOR_INCREASE
          else BufferAbr.SAFETY_FACTOR_DECREASE
        score * safetyFactor
      else score
    match acc.1 with
    | none => (some adjustedScore, i)
    | some bestScore =>
      if adjustedScore ≥ bestScore then (some adjustedScore, i) else acc
  let quality := ((List.range st.representations.length).foldl step (none, 0)).2
  let selectedRepresentation := st.representations.getD quality undefinedRep
  (selectedRepresentation, { st with currentRepresentation := some selectedRepresentation })

/-- `#getMaxBufferLevelForRepresentation(rep)` (lines 591-609): the highest
(or an unknown) representation gets `maxBufferLevel`; otherwise the minimum
buffer level of the next higher representation. -/
noncomputable def BufferAbr.getMaxBufferLevelForRepresentation (cfg : BufferAbrConfig)
    (st : BolaState) (rep : VideoRepresentation) : ℝ :=
  match st.representations.findIdx? (fun r => decide (r.id = rep.id)) with
  | none => (cfg.maxBufferLevel : ℝ)
  | some repIndex =>
    if repIndex = st.representations.length - 1 then (cfg.maxBufferLevel : ℝ)
    else
      BufferAbr.getMinBufferLevelForRepresentation st
        (st.representations.getD (repIndex + 1) undefinedRep)

/-- Shared loop shape of `#chooseThroughputBasedRepresentation` and
`#getOptimalRepresentationForThroughput`: walk the (bitrate-ascending) list,
keeping the last representation whose bitrate does not exceed the limit, and
stop at the first that does. -/
def BufferAbr.selectForThroughputGo (selected : VideoRepresentation) (limit : ℚ) :
    List VideoRepresentation → VideoRepresentation
  | [] => selected
  | rep :: rest =>
    if rep.bitrate ≤ limit then BufferAbr.selectForThroughputGo rep limit rest
    else selected

/-- `#getOptimalRepresentationForThroughput(throughputBps)` (lines 611-627). -/
def BufferAbr.getOptimalRepresentationForThroughput (st : BolaState)
    (throughputBps : ℚ) : VideoRepresentation :=
  BufferAbr.selectForThroughputGo (st.representations.headD undefinedRep) throughputBps
    st.representations

/-- `#checkPlaceholderBufferLimit` (lines 399-412): cap the placeholder at
`maxBufferLevel − bufferTarget`. -/
noncomputable def BufferAbr.checkPlaceholderBufferLimit (cfg : BufferAbrConfig)
    (st : BolaState) : BolaState :=
  let maxPlaceholder : ℝ := ((cfg.maxBufferLevel - cfg.bufferTarget : ℚ) : ℝ)
  if st.placeholderBuffer > maxPlaceholder then
    { st with placeholderBuffer := maxPlaceholder }
  else st

/-- `#updatePlaceholderBuffer` (lines 370-397): add the non-download delay
since the last segment finish (or since the last call) to the placeholder,
reset the per-segment timestamps, stamp `lastCallTimeMs`, then apply the
placeholder cap.  `lastCallTimeMs` is never `NaN` (see `BolaState`), so the
source's `else if (!isNaN(lastCallTimeMs))` branch is always available. -/
noncomputable def BufferAbr.updatePlaceholderBuffer (cfg : BufferAbrConfig)
    (st : BolaState) (nowMs : ℚ) : BolaState :=
  let delayS : ℝ :=
    match st.lastSegmentFinishTimeMs with
    | some t => max 0 (((nowMs - t : ℚ) : ℝ) * (1 / 1000))
    | none => max 0 (((nowMs - st.lastCallTimeMs : ℚ) : ℝ) * (1 / 1000))
  let st1 := { st with
    placeholderBuffer := st.placeholderBuffer + delayS
    lastCallTimeMs := nowMs
    lastSegmentStart := none
    lastSegmentRequestTimeMs := none
    lastSegmentFinishTimeMs := none }
  BufferAbr.checkPlaceholderBufferLimit cfg st1

/-- `#chooseThroughputBasedRepresentation` — the STARTUP path (lines
227-278).  `throughputBps` is `bandwidthEstimator.getBandwidthEstimate()`
(`none` models `NaN`), `bufferLevel` is `bufferController.getBufferLevel()`.
The selected representation's minimum buffer level is turned into the
placeholder (`max(0, minBufferForRep − bufferLevel)`) WITHOUT applying
`#checkPlaceholderBufferLimit`; afterwards the state may transition to
STEADY_STATE when the buffer already holds one full segment. -/
noncomputable def BufferAbr.chooseThroughputBasedRepresentation (cfg : BufferAbrConfig)
    (st : BolaState) (bufferLevel : ℚ) (throughputBps : Option ℚ) :
    VideoRepresentation × BolaState :=
  match throughputBps with
  | none => (st.representations.headD undefinedRep, st)
  | some tp =>
    let safeThroughput := tp * BufferAbr.THROUGHPUT_SAFETY_FACTOR
    let selected :=
      BufferAbr.selectForThroughputGo (st.representations.headD undefinedRep)
        safeThroughput st.representations
    let minBufferForRep := BufferAbr.getMinBufferLevelForRepresentation st selected
    let st1 := { st with
      placeholderBuffer := max 0 (minBufferForRep - (bufferLevel : ℝ))
      currentRepresentation := some selected }
    let st2 :=
      match st1.lastSegmentDurationS with
      | some d =>
        if bufferLevel ≥ d then { st1 with algorithmState := BolaAlgorithmState.STEADY_STATE }
        else st1
      | none => st1
    (selected, st2)

/-- `#chooseBufferBasedRepresentation` — the STEADY_STATE path (lines
292-368): placeholder update, BOLA selection on the effective buffer, the
BOLA-O oscillation guard (note that `#getRepresentationFromBufferLevel` has
already overwritten `currentRepresentation` with its choice, so the guard's
first comparison is against that same choice), and overflow handling that
drains the placeholder before reporting a delay. -/
noncomputable def BufferAbr.chooseBufferBasedRepresentation (cfg : BufferAbrConfig)
    (st : BolaState) (bufferLevel : ℚ) (throughputBps : Option ℚ) (nowMs : ℚ) :
    Except String (VideoRepresentation × BolaState) := do
  let _ ← Assert.assertDefined st.currentRepresentation
  let st1 := BufferAbr.updatePlaceholderBuffer cfg st nowMs
  let effectiveBuffer : ℝ := (bufferLevel : ℝ) + st1.placeholderBuffer
  let (rep0, st2) := BufferAbr.getRepresentationFromBufferLevel st1 effectiveBuffer
  let representation :=
    match throughputBps with
    | none => rep0
    | some tp =>
      let safeThroughput := tp * BufferAbr.THROUGHPUT_SAFETY_FACTOR
      let throughputRep := BufferAbr.getOptimalRepresentationForThroughput st2 safeThroughput
      if (match st2.currentRepresentation with
          | some cur => decide (rep0.bitrate > cur.bitrate)
          | none => false)
          && decide (rep0.bitrate > throughputRep.bitrate) then
        if throughputRep.bitrate > ((st2.currentRepresentation.map (·.bitrate)).getD 0) then
          throughputRep
        else
          st2.currentRepresentation.getD rep0
      else rep0
  let maxBufferForRep := BufferAbr.getMaxBufferLevelForRepresentation cfg st2 representation
  let delayS : ℝ := max 0 (effectiveBuffer - maxBufferForRep)
  let st3 :=
    if delayS > 0 then
      if delayS ≤ st2.placeholderBuffer then
        { st2 with placeholderBuffer := st2.placeholderBuffer - delayS }
      else
        { st2 with placeholderBuffer := 0 }
    else st2
  return (representation, { st3 with currentRepresentation := some representation })

/-- `BufferAbr.chooseRepresentation` (lines 209-225): dispatch on the
algorithm state (the `default` case also takes the buffer-based path). -/
noncomputable def BufferAbr.chooseRepresentation (cfg : BufferAbrConfig)
    (bolaState : Option BolaState) (bufferLevel : ℚ) (throughputBps : Option ℚ)
    (nowMs : ℚ) : Except String (VideoRepresentation × BolaState) := do
  let st ← Assert.assertDefined bolaState
  match st.algorithmState with
  | BolaAlgorithmState.ONE_BITRATE => return (st.representations.headD undefinedRep, st)
  | BolaAlgorithmState.STARTUP =>
    return BufferAbr.chooseThroughputBasedRepresentation cfg st bufferLevel throughputBps
  | BolaAlgorithmState.STEADY_STATE =>
    BufferAbr.chooseBufferBasedRepresentation cfg st bufferLevel throughputBps nowMs

/-- Loop of `#findClosestRepresentation` (lines 190-207). -/
def BufferAbr.findClosestGo (targetRep : VideoRepresentation)
    (closest : VideoRepresentation) (minDiff : ℚ) :
    List VideoRepresentation → VideoRepresentation
  | [] => closest
  | rep :: rest =>
    let diff := |targetRep.bitrate - rep.bitrate|
    if diff < minDiff then BufferAbr.findClosestGo targetRep rep diff rest
    else BufferAbr.findClosestGo targetRep closest minDiff rest

/-- `#findClosestRepresentation(targetRep, availableReps)`. -/
def BufferAbr.findClosestRepresentation (targetRep : VideoRepresentation)
    (availableReps : List VideoRepresentation) : VideoRepresentation :=
  let closest := availableReps.headD undefinedRep
  BufferAbr.findClosestGo targetRep closest (|targetRep.bitrate - closest.bitrate|)
    availableReps

/-- `BufferAbr.setRepresentations` (lines 118-188): re-initialise the BOLA
state, restore the algorithm state, force ONE_BITRATE for a single
representation, and otherwise carry the current representation over (by id,
falling back to the closest bitrate, in which case the placeholder may be
raised to `minBufferForNewRep − bufferLevel` — again without the cap). -/
noncomputable def BufferAbr.setRepresentations (cfg : BufferAbrConfig)
    (prior : Option BolaState) (representations : List VideoRepresentation)
    (bufferLevel : ℚ) (nowMs : ℚ) : Except String BolaState := do
  Assert.assert (decide (0 < representations.length))
  let wasInitialized := prior.isSome
  let previousRepresentation := prior.bind (·.currentRepresentation)
  let previousAlgorithmState := prior.map (·.algorithmState)
  let st0 := BufferAbr.initBolaState cfg previousAlgorithmState representations nowMs
  let st1 :=
    if !wasInitialized then { st0 with algorithmState := BolaAlgorithmState.STARTUP }
    else
      match previousAlgorithmState with
      | some s => { st0 with algorithmState := s }
      | none => st0
  if representations.length = 1 then
    return { st1 with
      algorithmState := BolaAlgorithmState.ONE_BITRATE
      currentRepresentation := some (representations.headD undefinedRep) }
  else
    match previousRepresentation with
    | none => return st1
    | some prevRep =>
      match representations.find? (fun rep => decide (rep.id = prevRep.id)) with
      | some matchingRep => return { st1 with currentRepresentation := some matchingRep }
      | none =>
        let closest := BufferAbr.findClosestRepresentation prevRep representations
        let st2 := { st1 with currentRepresentation := some closest }
        if closest.id ≠ prevRep.id then
          let minBufferForNewRep :=
            BufferAbr.getMinBufferLevelForRepresentation st2 closest
          if (bufferLevel : ℝ) + st2.placeholderBuffer < minBufferForNewRep then
            return { st2 with
              placeholderBuffer :=
                max st2.placeholderBuffer (minBufferForNewRep - (bufferLevel : ℝ)) }
          else
            return st2
        else
          return st2

/-- `#clearBolaStateOnSeek` (lines 81-93). -/
def BufferAbr.clearBolaStateOnSeek (st : BolaState) : BolaState :=
  { st with
    placeholderBuffer := 0
    mostAdvancedSegmentStart := none
    lastSegmentWasReplacement := false
    lastSegmentStart := none
    lastSegmentDurationS := none
    lastSegmentRequestTimeMs := none
    lastSegmentFinishTimeMs := none
    segmentCount := 0 }

/-- `#onPlaybackSeeked` (lines 71-79). -/
def BufferAbr.onPlaybackSeeked (st : BolaState) : BolaState :=
  if st.algorithmState ≠ BolaAlgorithmState.ONE_BITRATE then
    BufferAbr.clearBolaStateOnSeek { st with algorithmState := BolaAlgorithmState.STARTUP }
  else st

/-- `#onBufferEmpty` (lines 95-107). -/
def BufferAbr.onBufferEmpty (st : BolaState) (nowMs : ℚ) : BolaState :=
  let st1 := { st with rebufferStartTimeMs := some nowMs, placeholderBuffer := 0 }
  if st1.algorithmState = BolaAlgorithmState.STEADY_STATE then
    { st1 with algorithmState := BolaAlgorithmState.STARTUP }
  else st1

/-- `#onSegmentDownloadBegin(segmentRef)` (lines 481-494). -/
def BufferAbr.onSegmentDownloadBegin (st : BolaState) (segmentRef : SegmentReference)
    (nowMs : ℚ) : BolaState :=
  let st1 := { st with
    lastSegmentRequestTimeMs := some nowMs
    lastSegmentStart := some segmentRef.startTime }
  match st1.mostAdvancedSegmentStart with
  | none => { st1 with mostAdvancedSegmentStart := some segmentRef.startTime }
  | some m =>
    if segmentRef.startTime > m then
      { st1 with mostAdvancedSegmentStart := some segmentRef.startTime }
    else st1

/-- `#onSegmentDownloadEnd(payload)` (lines 496-510); `segmentRef` and
`isReplacement` are the payload fields (`payload.isReplacement || false`). -/
def BufferAbr.onSegmentDownloadEnd (st : BolaState)
    (segmentRef : Option SegmentReference) (isReplacement : Bool) (nowMs : ℚ) :
    BolaState :=
  let st1 := { st with
    lastSegmentFinishTimeMs := some nowMs
    segmentCount := st.segmentCount + 1 }
  let st2 :=
    match segmentRef with
    | some ref => { st1 with lastSegmentDurationS := some (ref.endTime - ref.startTime) }
    | none => st1
  { st2 with lastSegmentWasReplacement := isReplacement }

/-! ## BufferController — segment pipeline state (src/src/Controller/BufferController.ts)

The parts of the pipeline the claims exercise: buffered-segment tracking and
its sync with the sink's buffered ranges, replacement-candidate search, the
effective buffer level, and the quota-exceeded recovery handler.  The media
sink is modelled by `sourceBufferPresent` / `sourceBufferUpdating` flags and
the list of buffered time ranges; removing a byte range updates that list. -/

/-- Buffered time range of the sink.  The source field named `end` is called
`endTime` here (`end` is a Lean keyword). -/
structure BufferRange where
  start : ℚ
  endTime : ℚ
  deriving Repr, DecidableEq

/-- `DownloadTask` (BufferController.ts lines 35-45): only the fields the
claims read. -/
structure DownloadTask where
  segmentNumber : ℕ
  isReplacement : Bool
  replacingSegment : Option ℕ
  deriving Repr, DecidableEq

/-- `QueuedSegment` (lines 47-55): `data`/`timestamp` omitted, `bytes` is the
payload size. -/
structure QueuedSegment where
  segmentNumber : ℕ
  duration : ℚ
  representationId : String
  bitrate : ℚ
  bytes : ℚ
  deriving Repr, DecidableEq

/-- `BufferedSegmentInfo` (lines 57-64). -/
structure BufferedSegmentInfo where
  segmentNumber : ℕ
  startTime : ℚ
  endTime : ℚ
  representationId : String
  bitrate : ℚ
  bytes : ℚ
  deriving Repr, DecidableEq

/-- Representation as consumed by the BufferController and GapController:
identifier, bitrate and the segment index (`SegmentIndex.references`). -/
structure MediaRepresentation where
  id : String
  bitrate : ℚ
  segmentIndex : List SegmentReference
  deriving Repr, DecidableEq

/-- Loop of `SegmentIndex.getSegmentAtTime` (SegmentReference.ts lines
28-54): binary search over `[left, right]`, falling back to `references[left]`
when the time lies in a gap before some segment.  The `while` loop is given
`references.length + 1` iterations of fuel, which bounds its actual depth. -/
def SegmentIndex.getSegmentAtTimeGo (references : List SegmentReference) (time : ℚ) :
    ℕ → ℤ → ℤ → Option SegmentReference
  | 0, _, _ => none
  | fuel + 1, left, right =>
    if left ≤ right then
      let mid := (left + right) / 2
      let ref := references.getD mid.toNat ⟨0, 0, 0⟩
      if time ≥ ref.startTime ∧ time < ref.endTime then some ref
      else if time < ref.startTime then
        SegmentIndex.getSegmentAtTimeGo references time fuel left (mid - 1)
      else
        SegmentIndex.getSegmentAtTimeGo references time fuel (mid + 1) right
    else
      if left < (references.length : ℤ) then some (references.getD left.toNat ⟨0, 0, 0⟩)
      else none

/-- `SegmentIndex.getSegmentAtTime(time)`. -/
def SegmentIndex.getSegmentAtTime (references : List SegmentReference) (time : ℚ) :
    Option SegmentReference :=
  SegmentIndex.getSegmentAtTimeGo references time (references.length + 1) 0
    ((references.length : ℤ) - 1)

/-- `SegmentIndex.getNextSegment(currentSegment)` (SegmentReference.ts lines
77-85). -/
def SegmentIndex.getNextSegment (references : List SegmentReference)
    (currentSegment : SegmentReference) : Option SegmentReference :=
  let currentIndex := jsFindIndex (fun r => decide (r = currentSegment)) references
  if 0 ≤ currentIndex ∧ currentIndex < (references.length : ℤ) - 1 then
    references.get? (currentIndex.toNat + 1)
  else none

/-- Events published by the BufferController that the claims mention. -/
inductive BufferEvent
  | BUFFER_TARGET_CHANGED (newBufferTarget : ℚ)
  | BUFFER_LEVEL_UPDATED (bufferLevel : ℚ)
  deriving Repr, DecidableEq

/-- State of one BufferController instance.  Configuration fields carry the
`#config` values (defaults: `bufferingTarget = 60`, `bufferBehind = 5`,
`quotaExceededCorrectionFactor = 0.8`, `replacementSafetyFactor = 1.5`);
`criticalLevel` starts as `NaN` (`none`).  `ranges` models
`sourceBuffer.buffered`; `isVideo` selects the event-publishing branch of
`#updateBufferLevel`. -/
structure BufferControllerState where
  level : ℚ
  criticalLevel : Option ℚ
  bufferingTarget : ℚ
  bufferBehind : ℚ
  quotaExceededCorrectionFactor : ℚ
  replacementSafetyFactor : ℚ
  quotaExceededInProgress : Bool
  downloadPipeline : List DownloadTask
  appendQueue : List QueuedSegment
  appendQueueDuration : ℚ
  nextSegmentToDownload : Option ℕ
  nextSegmentToAppend : Option ℕ
  replacementQueue : List ℕ
  isProcessingReplacement : Bool
  replacementsInProgress : List ℕ
  isProcessingQueue : Bool
  bufferedSegments : List (ℕ × BufferedSegmentInfo)
  currentRepresentationBitrate : ℚ
  isVideo : Bool
  sourceBufferPresent : Bool
  sourceBufferUpdating : Bool
  ranges : List BufferRange
  deriving Repr, DecidableEq

/-- `#syncSegmentTrackingWithBuffer` (BufferController.ts lines 430-450):
keep exactly the tracked segments whose `[startTime, endTime)` overlaps some
buffered range of the sink. -/
def BufferController.syncSegmentTrackingWithBuffer (st : BufferControllerState) :
    BufferControllerState :=
  { st with
    bufferedSegments := st.bufferedSegments.filter (fun p =>
      st.ranges.any (fun range =>
        decide (p.2.startTime < range.endTime) && decide (p.2.endTime > range.start))) }

/-- `#getBufferedBytes` (lines 1630-1636). -/
def BufferController.getBufferedBytes (st : BufferControllerState) : ℚ :=
  (st.bufferedSegments.map (fun p => p.2.bytes)).sum

/-- `#findReplaceableSegments` (BufferController.ts lines 452-498).  Despite
the comment "Get current representation for segment duration" and the `rep`
lookup, the source sets `const segmentDuration = 3` — a constant, not the
representation's segment duration — so the threshold is
`currentTime + 3 · replacementSafetyFactor`.  Iterating the map also deletes
segments that end before the playhead; candidates are then sorted by start
time (earliest deadline first).  Returns the sorted candidates and the state
with the expired segments dropped. -/
def BufferController.findReplaceableSegments (st : BufferControllerState)
    (currentTime : ℚ) (rep : Option MediaRepresentation) :
    List BufferedSegmentInfo × BufferControllerState :=
  match rep with
  | none => ([], st)
  | some _ =>
    let segmentDuration : ℚ := 3
    let safeReplacementThreshold :=
      currentTime + segmentDuration * st.replacementSafetyFactor
    let kept := st.bufferedSegments.filter (fun p => !(decide (p.2.endTime < currentTime)))
    let replaceable := (kept.map (fun p => p.2)).filter (fun segment =>
      !(decide (segment.startTime < safeReplacementThreshold)) &&
      !(decide (segment.bitrate ≥ st.currentRepresentationBitrate)) &&
      !(st.downloadPipeline.any (fun task =>
          task.isReplacement && decide (task.replacingSegment = some segment.segmentNumber))))
    (jsSortBy (fun a b => decide (a.startTime < b.startTime)) replaceable,
      { st with bufferedSegments := kept })

/-- `#shouldDownloadReplacement` (lines 500-507): the earliest replaceable
segment, when fast switching is enabled. -/
def BufferController.shouldDownloadReplacement (st : BufferControllerState)
    (currentTime : ℚ) (rep : Option MediaRepresentation)
    (fastSwitchingEnabled : Bool) : Option BufferedSegmentInfo :=
  if !fastSwitchingEnabled then none
  else ((BufferController.findReplaceableSegments st currentTime rep).1).head?

/-- MSE `SourceBuffer.remove(start, end)` on the buffered-ranges model:
subtract the closed removal window from every range. -/
def BufferController.removeIntervalFromRanges (ranges : List BufferRange) (s e : ℚ) :
    List BufferRange :=
  ranges.foldr (fun r acc =>
    if r.endTime ≤ s ∨ e ≤ r.start then r :: acc
    else
      (if r.start < s then [⟨r.start, s⟩] else []) ++
        (if e < r.endTime then [⟨e, r.endTime⟩] else []) ++ acc) []

/-- Guarded removal: the source only removes when
`removeStart >= 0 && removeEnd > removeStart`. -/
def BufferController.removeIfValid (ranges : List BufferRange) (s e : ℚ) :
    List BufferRange :=
  if 0 ≤ s ∧ e > s then BufferController.removeIntervalFromRanges ranges s e else ranges

/-- `#removeExcessBufferDataWithTracking` (BufferController.ts lines
2054-2181): drop tracked segments fully outside
`[keepStart, keepEnd] = [max(0, t − min(bufferBehind, 2)), t + criticalLevel]`
and remove the sink ranges' parts outside that window, walking the snapshot
of ranges taken before removal.  (The "range spans entire keep window" branch
of the source is unreachable — such a range is already matched by the
"starts before keep window" case — but is modelled as written.) -/
def BufferController.removeExcessBufferDataWithTracking (st : BufferControllerState)
    (currentTime : ℚ) : BufferControllerState :=
  if !st.sourceBufferPresent || st.sourceBufferUpdating then st
  else
    let newTargetLevel := st.criticalLevel.getD 0
    let bufferBehind := min st.bufferBehind 2
    let keepStart := max 0 (currentTime - bufferBehind)
    let keepEnd := currentTime + newTargetLevel
    let segmentsToRemove := (st.bufferedSegments.filter (fun p =>
      decide (p.2.endTime ≤ keepStart) || decide (p.2.startTime ≥ keepEnd))).map (fun p => p.1)
    let rangesBefore := st.ranges
    let newRanges := rangesBefore.foldl (fun cur range =>
      if range.endTime ≤ keepStart then
        BufferController.removeIfValid cur range.start range.endTime
      else if range.start ≥ keepEnd then
        BufferController.removeIfValid cur range.start range.endTime
      else if range.start < keepStart ∧ range.endTime > keepStart then
        BufferController.removeIfValid cur range.start (min keepStart range.endTime)
      else if range.start < keepEnd ∧ range.endTime > keepEnd then
        BufferController.removeIfValid cur (max keepEnd range.start) range.endTime
      else if range.start < keepStart ∧ range.endTime > keepEnd then
        BufferController.removeIfValid
          (BufferController.removeIntervalFromRanges cur range.start keepStart)
          keepEnd range.endTime
      else cur) st.ranges
    { st with
      ranges := newRanges
      bufferedSegments := st.bufferedSegments.filter (fun p =>
        !(segmentsToRemove.contains p.1)) }

/-- `#resetSegmentPointersAfterQuotaExceeded` (BufferController.ts lines
2196-2290): recompute both segment pointers from the range containing (or
closest after) the playhead and the segment index; with no buffer left, from
the playhead itself; at end of stream, both become null. -/
def BufferController.resetSegmentPointersAfterQuotaExceeded
    (st : BufferControllerState) (currentTime : ℚ) (rep : Option MediaRepresentation) :
    BufferControllerState :=
  match rep with
  | none => st
  | some rep =>
    if st.ranges.isEmpty then
      match SegmentIndex.getSegmentAtTime rep.segmentIndex currentTime with
      | some segment =>
        { st with
          nextSegmentToDownload := some segment.segmentNumber
          nextSegmentToAppend := some segment.segmentNumber }
      | none => st
    else
      let containing := st.ranges.find? (fun range =>
        decide (currentTime ≥ range.start - 1 / 10) &&
          decide (currentTime ≤ range.endTime + 1 / 10))
      let targetRange : Option BufferRange :=
        match containing with
        | some r => some r
        | none =>
          st.ranges.foldl (fun (acc : Option BufferRange) (range : BufferRange) =>
            if range.start > currentTime then
              match acc with
              | none => some range
              | some best =>
                if range.start - currentTime < best.start - currentTime then some range
                else acc
            else acc) none
      match targetRange with
      | none => st
      | some tr =>
        let bufferEnd := tr.endTime
        match SegmentIndex.getSegmentAtTime rep.segmentIndex bufferEnd with
        | none => st
        | some segment =>
          if bufferEnd ≥ segment.endTime - 1 / 10 then
            match SegmentIndex.getNextSegment rep.segmentIndex segment with
            | some nextSegment =>
              { st with
                nextSegmentToDownload := some nextSegment.segmentNumber
                nextSegmentToAppend := some nextSegment.segmentNumber }
            | none =>
              { st with nextSegmentToDownload := none, nextSegmentToAppend := none }
          else
            { st with
              nextSegmentToDownload := some segment.segmentNumber
              nextSegmentToAppend := some segment.segmentNumber }

/-- `#SMALL_GAP_LIMIT = 1.5`. -/
def BufferController.SMALL_GAP_LIMIT : ℚ := 3 / 2

/-- `#MAX_REASONABLE_GAP = this.#config.bufferingTarget`, captured once at
construction (60), NOT the live buffering target. -/
def BufferController.MAX_REASONABLE_GAP : ℚ := 60

/-- Gap-bridging loop of `#calculateEffectiveBufferLevel` (lines 587-627);
`JUMP_LARGER_GAPS = true`, so a positive gap is bridged when it is at most
`SMALL_GAP_LIMIT` or `MAX_REASONABLE_GAP` and additionally small (`< 2 ·
bufferBehind`) or within the small-gap limit; otherwise the walk stops. -/
def BufferController.effLoop (bufferBehind : ℚ) :
    List BufferRange → ℚ → ℚ → ℚ
  | [], _, acc => acc
  | range :: rest, lastIncludedEnd, acc =>
    let gap := range.start - lastIncludedEnd
    if gap > 0 then
      if gap ≤ BufferController.SMALL_GAP_LIMIT ∨
          gap ≤ BufferController.MAX_REASONABLE_GAP then
        let gapStartsNearCurrentPosition := gap < bufferBehind * 2
        if gapStartsNearCurrentPosition ∨ gap ≤ BufferController.SMALL_GAP_LIMIT then
          BufferController.effLoop bufferBehind rest range.endTime
            (acc + gap + (range.endTime - range.start))
        else acc
      else acc
    else
      BufferController.effLoop bufferBehind rest range.endTime
        (acc + (range.endTime - range.start))

/-- `#calculateEffectiveBufferLevel` (BufferController.ts lines 561-637). -/
def BufferController.calculateEffectiveBufferLevel (st : BufferControllerState)
    (currentTime : ℚ) : ℚ :=
  if !st.sourceBufferPresent then 0
  else if st.ranges.isEmpty then 0
  else
    let futureRanges := st.ranges.filterMap (fun range =>
      if range.endTime > currentTime then
        some { start := max range.start currentTime, endTime := range.endTime : BufferRange }
      else none)
    if futureRanges.isEmpty then 0
    else
      let effectiveLevel := BufferController.effLoop st.bufferBehind futureRanges currentTime 0
      max 0 (min effectiveLevel (st.bufferingTarget * (3 / 2)))

/-- `#updateBufferLevel` (lines 548-559): recompute the level and, for the
video controller, publish `BUFFER_LEVEL_UPDATED`. -/
def BufferController.updateBufferLevel (st : BufferControllerState) (currentTime : ℚ) :
    BufferControllerState × List BufferEvent :=
  if !st.sourceBufferPresent then (st, [])
  else
    let bufferLevel := BufferController.calculateEffectiveBufferLevel st currentTime
    let st1 := { st with level := bufferLevel }
    (st1, if st1.isVideo then [BufferEvent.BUFFER_LEVEL_UPDATED bufferLevel] else [])

/-- `#handleQuotaExceeded` (BufferController.ts lines 1928-2051).  The
buffered-segments sync (and a byte-count read) run BEFORE the
`quotaExceededInProgress` reentrancy guard.  For a complete run (guard clear,
sink present and idle) the handler computes
`criticalLevel = max(10, (existing critical ?? level) · quotaExceededCorrectionFactor)`,
installs it as `bufferingTarget`, publishes `BUFFER_TARGET_CHANGED`, cancels
the pipeline, clears every queue, prunes the buffer to the critical window,
resets the segment pointers, and refreshes the buffer level.  On the
sink-updating path only the synchronous part is modelled (a 100 ms timer
later clears the flag and retries); the deferred 2-second
`loadNextSegments` timer is likewise outside this synchronous model. -/
def BufferController.handleQuotaExceeded (st0 : BufferControllerState)
    (currentTime : ℚ) (rep : Option MediaRepresentation) :
    BufferControllerState × List BufferEvent :=
  let st := BufferController.syncSegmentTrackingWithBuffer st0
  -- `const bufferedBytes = this.#getBufferedBytes();` — read-only, logged.
  if st.quotaExceededInProgress then (st, [])
  else
    let st := { st with quotaExceededInProgress := true }
    if !st.sourceBufferPresent then (st, [])
    else if st.sourceBufferUpdating then (st, [])
    else
      let criticalLevel0 : ℚ :=
        match st.criticalLevel with
        | none => st.level * st.quotaExceededCorrectionFactor
        | some c => c * st.quotaExceededCorrectionFactor
      let criticalLevel1 : ℚ := max 10 criticalLevel0
      let st := { st with
        criticalLevel := some criticalLevel1
        bufferingTarget := criticalLevel1 }
      let events := [BufferEvent.BUFFER_TARGET_CHANGED st.bufferingTarget]
      let st := { st with downloadPipeline := [] }
      let st := { st with
        appendQueue := []
        appendQueueDuration := 0
        replacementQueue := []
        isProcessingReplacement := false
        replacementsInProgress := []
        isProcessingQueue := false }
      let st := BufferController.removeExcessBufferDataWithTracking st currentTime
      let st := BufferController.resetSegmentPointersAfterQuotaExceeded st currentTime rep
      let (st, levelEvents) := BufferController.updateBufferLevel st currentTime
      (st, events ++ levelEvents)

/-! ## Concrete instances used by the theorems below -/

/-- Two-representation ladder (1 Mbps / 6 Mbps). -/
def repLow : VideoRepresentation := { id := "low", bitrate := 1000000 }

/-- See `repLow`. -/
def repHigh : VideoRepresentation := { id := "high", bitrate := 6000000 }

/-- DroppedFrames strategy state: no downgrades recorded yet. -/
def dfStateA : DroppedFramesAbrState :=
  { downgrades := none, representations := [repLow, repHigh] }

/-- AbrController 2 s after a quality switch (cooldown active). -/
def abrStateA : AbrControllerState :=
  { config := AbrController.DEFAULT_CONFIG
    smoothingActive := false
    currentStrategy := AbrStrategyType.Bandwidth
    lastSwitchTime := 100000
    filteredRepresentations := [repLow, repHigh]
    qualityHistory := [] }

/-- Environment at `now = 102000`: the rendered representation has 400
sampled frames of which 80 were dropped (drop rate 20 % > 15 %, sample size
400 ≥ 375), so the DroppedFrames strategy wants a downshift. -/
def abrEnvA : AbrEnv :=
  { now := 102000
    currentRepresentation := some repHigh
    bufferLevel := 30
    frameHistory := { droppedVideoFrames := 80, totalVideoFrames := 400 }
    bufferChoice := none
    bandwidthChoice := none }

/-- Stall detector in NORMAL_PLAYBACK, last sample 1000 ms ago, playhead
frozen at 50 s. -/
def stallStateA : StallDetectorState :=
  { lastPlaybackTime := 50
    lastCheckTime := 9000
    consecutiveStallChecks := 0
    isStalled := false
    lastReadyState := 4
    currentContext := PlayerContext.NORMAL_PLAYBACK
    contextStartTime := 0
    hasPlaybackStarted := true
    stallHistory := [] }

/-- Stall-candidate environment where the playhead position is NOT buffered
while a download covers it (`isPositionBuffered` answers false,
`isDownloadingForPosition` answers true); network idle. -/
def stallEnvNotBuffered : StallVideoEnv :=
  { currentTime := 50
    now := 10000
    paused := false
    seeking := false
    ended := false
    readyState := 2
    networkState := 1
    isPositionBuffered := some (fun _ => false)
    isDownloadingForPosition := some (fun _ => true) }

/-- Stall-candidate environment where the position IS buffered and a download
covers it. -/
def stallEnvBuffered : StallVideoEnv :=
  { stallEnvNotBuffered with
    isPositionBuffered := some (fun _ => true)
    isDownloadingForPosition := some (fun _ => true) }

/-- A tracked buffered segment `[0, 4)`. -/
def segInfoA : BufferedSegmentInfo :=
  { segmentNumber := 1, startTime := 0, endTime := 4
    representationId := "low", bitrate := 1000000, bytes := 500000 }

/-- Baseline BufferController state with default configuration. -/
def bcBase : BufferControllerState :=
  { level := 20
    criticalLevel := none
    bufferingTarget := 60
    bufferBehind := 5
    quotaExceededCorrectionFactor := 8 / 10
    replacementSafetyFactor := 3 / 2
    quotaExceededInProgress := false
    downloadPipeline := []
    appendQueue := []
    appendQueueDuration := 0
    nextSegmentToDownload := some 7
    nextSegmentToAppend := some 6
    replacementQueue := []
    isProcessingReplacement := false
    replacementsInProgress := []
    isProcessingQueue := false
    bufferedSegments := []
    currentRepresentationBitrate := 6000000
    isVideo := true
    sourceBufferPresent := true
    sourceBufferUpdating := false
    ranges := [] }

/-- Quota recovery already in progress; the tracked segment `[0, 4)` is stale
(the sink reports no buffered ranges). -/
def bcStateC6 : BufferControllerState :=
  { bcBase with
    quotaExceededInProgress := true
    downloadPipeline := [{ segmentNumber := 7, isReplacement := false, replacingSegment := none }]
    bufferedSegments := [(1, segInfoA)] }

/-- Quota exceeded at buffer level 70 s with no prior critical level (spec
scenario S3). -/
def bcStateC5 : BufferControllerState :=
  { bcBase with
    level := 70
    ranges := [{ start := 0, endTime := 70 }] }

/-- Representation whose segment index has 4-second segments (numbers
40, 41, 42 covering `[0, 12)`). -/
def rep4s : MediaRepresentation :=
  { id := "high", bitrate := 6000000
    segmentIndex := [⟨40, 0, 4⟩, ⟨41, 4, 8⟩, ⟨42, 8, 12⟩] }

/-- Buffered copy of 4-second segment 42 (`[8, 12)`) at the low bitrate. -/
def segC9 : BufferedSegmentInfo :=
  { segmentNumber := 42, startTime := 8, endTime := 12
    representationId := "low", bitrate := 1000000, bytes := 400000 }

/-- Pipeline state after an up-switch to 6 Mbps with the low-bitrate segment
42 still buffered; playhead at 3 s. -/
def bcStateC9 : BufferControllerState :=
  { bcBase with bufferedSegments := [(42, segC9)] }

/-- 16-representation ladder with bitrates `2^0 .. 2^15` bits per second
(ascending powers of two keep the BOLA utilities in exact `i · ln 2` form). -/
def repsC4 : List VideoRepresentation :=
  [{ id := "q0", bitrate := 1 }, { id := "q1", bitrate := 2 },
   { id := "q2", bitrate := 4 }, { id := "q3", bitrate := 8 },
   { id := "q4", bitrate := 16 }, { id := "q5", bitrate := 32 },
   { id := "q6", bitrate := 64 }, { id := "q7", bitrate := 128 },
   { id := "q8", bitrate := 256 }, { id := "q9", bitrate := 512 },
   { id := "q10", bitrate := 1024 }, { id := "q11", bitrate := 2048 },
   { id := "q12", bitrate := 4096 }, { id := "q13", bitrate := 8192 },
   { id := "q14", bitrate := 16384 }, { id := "q15", bitrate := 32768 }]

/-- BOLA state initialised from the 16-representation ladder. -/
noncomputable def bolaStateC4 : BolaState :=
  BufferAbr.initBolaState BufferAbr.defaultConfig none repsC4 0

/-- Two-representation ladder (1 kbps / 2 kbps) for the minimum-buffer
closed form. -/
def repsC3 : List VideoRepresentation :=
  [{ id := "r0", bitrate := 1000 }, { id := "r1", bitrate := 2000 }]

/-- BOLA state initialised from `repsC3`. -/
noncomputable def bolaStateC3 : BolaState :=
  BufferAbr.initBolaState BufferAbr.defaultConfig none repsC3 0

/-- Small BOLA state used to witness the placeholder-bound theorem. -/
noncomputable def bolaStateC4w : BolaState :=
  BufferAbr.initBolaState BufferAbr.defaultConfig none repsC3 0

/-- Blacklist holding one URL and one segment number. -/
def blacklistA : BlacklistController :=
  { blacklistedUrls := ["http_a"], blacklistedSegmentNumbers := [5] }

/-! ## Theorems settling the claims -/

/-- C10: `BlacklistController.reset()` empties the blacklisted-URL list but
leaves the blacklisted-segment-number list unchanged — every segment number
contained before `reset()` is still contained afterwards, while
`containsUrl` answers false for every (non-empty) URL afterwards. -/
theorem C10_reset_segments_survive (b : BlacklistController) (n : ℕ) (url : String)
    (hurl : 0 < url.length) :
    (b.containsSegmentNumber n = true → b.reset.containsSegmentNumber n = true) ∧
    b.reset.containsUrl url = Except.ok false := by
  constructor
  · intro h
    simpa [BlacklistController.reset, BlacklistController.containsSegmentNumber] using h
  · simp [BlacklistController.reset, BlacklistController.containsUrl, Assert.assert, hurl]

/-- C10 witness: the blacklist holding URL "http_a" and segment number 5,
reset, still contains 5 and no longer contains any URL. -/
theorem C10_witness :
    0 < "u".length ∧
    (blacklistA.containsSegmentNumber 5 = true →
      blacklistA.reset.containsSegmentNumber 5 = true) ∧
    blacklistA.reset.containsUrl "u" = Except.ok false :=
  ⟨by decide, (C10_reset_segments_survive blacklistA 5 "u" (by decide)).1,
    (C10_reset_segments_survive blacklistA 5 "u" (by decide)).2⟩

/-- C7 counterexample: the claim says `sample` with a non-positive duration
"fails silently (raises no error)", but `sample(0, 20000)` throws an
`AssertionError` (assertions are enabled by default). -/
theorem C7_counterexample :
    BandwidthEstimator.create.sample 0 20000 = Except.error "AssertionError" := by
  norm_num [BandwidthEstimator.sample, Assert.assert]
  all_goals rfl

/-- C7 (amended): for non-positive `durationMs` or `numBytes`,
`BandwidthEstimator.sample` raises an `AssertionError` before any state
change (rather than failing silently); for positive inputs with
`numBytes < MIN_BYTES` (16 kB) the sample is discarded and no internal state
(sample count, accumulated bytes, either EWMA) changes.  Non-finite inputs
are not representable in the `ℚ` model. -/
theorem C7_sample_guards (est : BandwidthEstimator) (durationMs numBytes : ℚ) :
    (durationMs ≤ 0 ∨ numBytes ≤ 0 →
      est.sample durationMs numBytes = Except.error "AssertionError") ∧
    (0 < durationMs → 0 < numBytes → numBytes < BandwidthEstimator.MIN_BYTES →
      est.sample durationMs numBytes = Except.ok est) := by
  constructor
  · rintro (h | h)
    · norm_num [BandwidthEstimator.sample, Assert.assert, not_lt.mpr h]
      all_goals rfl
    · rcases lt_or_le 0 durationMs with hd | hd
      · norm_num [BandwidthEstimator.sample, Assert.assert, hd, not_lt.mpr h]
        all_goals rfl
      · norm_num [BandwidthEstimator.sample, Assert.assert, not_lt.mpr hd]
        all_goals rfl
  · intro h1 h2 h3
    norm_num [BandwidthEstimator.sample, Assert.assert, h1, h2, h3]
    all_goals rfl

/-- C7 witness: `sample(0, 20000)` errors on the fresh estimator, and
`sample(1000, 100)` (100 bytes < 16 kB) returns it unchanged. -/
theorem C7_witness :
    ((0 : ℚ) ≤ 0 ∨ (20000 : ℚ) ≤ 0) ∧
    BandwidthEstimator.create.sample 0 20000 = Except.error "AssertionError" ∧
    ((0 : ℚ) < 1000 ∧ (0 : ℚ) < 100 ∧ (100 : ℚ) < BandwidthEstimator.MIN_BYTES) ∧
    BandwidthEstimator.create.sample 1000 100 = Except.ok BandwidthEstimator.create :=
  ⟨Or.inl le_rfl,
    (C7_sample_guards BandwidthEstimator.create 0 20000).1 (Or.inl le_rfl),
    ⟨by norm_num, by norm_num, by norm_num [BandwidthEstimator.MIN_BYTES]⟩,
    (C7_sample_guards BandwidthEstimator.create 1000 100).2 (by norm_num) (by norm_num)
      (by norm_num [BandwidthEstimator.MIN_BYTES])⟩

/-- C8 counterexample: the claim says `reset()` zeroes the state of both
EWMAs, but after one accepted sample (1000 ms, 20000 bytes) and a `reset()`
the fast EWMA's accumulated weight is still 1, not 0. -/
theorem C8_counterexample :
    (BandwidthEstimator.create.sample 1000 20000).map
        (fun e => e.reset.fast.totalWeight) = Except.ok 1 ∧
    (1 : ℝ) ≠ 0 := by
  constructor
  · norm_num [BandwidthEstimator.sample, BandwidthEstimator.create, Assert.assert,
      BandwidthEstimator.MIN_BYTES, BandwidthEstimator.reset, Emwa.sample, Emwa.create]
    all_goals rfl
  · norm_num

/-- C8 (amended): `reset()` zeroes the sample count and the accumulated byte
count and changes nothing else — in particular both the fast and the slow
EWMA keep their α AND their state (estimate and accumulated weight)
unchanged, contrary to the claim's "zero their state". -/
theorem C8_reset_effect (est : BandwidthEstimator) :
    est.reset.sampleCount = 0 ∧ est.reset.bytesSampled = 0 ∧
    est.reset.fast = est.fast ∧ est.reset.slow = est.slow :=
  ⟨rfl, rfl, rfl, rfl⟩

/-- C1 counterexample: with the switch cooldown active (2 s after a switch,
cooldown 5 s) and the DroppedFrames strategy's conditions all met (400 ≥ 375
sampled frames, 20 % > 15 % drop rate, no downgrades in the last 10 s — the
strategy itself would return the lower representation), `checkPlaybackQuality`
still returns "no change" and emits nothing: the cooldown is NOT bypassed. -/
theorem C1_counterexample :
    DroppedFramesAbr.chooseRepresentation dfStateA (some repHigh)
        abrEnvA.frameHistory abrEnvA.now =
      Except.ok (some repLow,
        { dfStateA with downgrades := some { count := 1, lastDowngradeTime := 102000 } }) ∧
    AbrController.checkPlaybackQuality abrStateA dfStateA abrEnvA =
      Except.ok (false, abrStateA, dfStateA, []) := by
  constructor
  · norm_num [DroppedFramesAbr.chooseRepresentation, DroppedFramesAbr.shouldLowerResolution,
      DroppedFramesAbr.MINIMUM_SAMPLE_SIZE,
      DroppedFramesAbr.DROPPED_FRAMES_PERCENTAGE_THRESHOLD,
      dfStateA, repLow, repHigh, abrEnvA, Assert.assert]
    all_goals rfl
  · norm_num [AbrController.checkPlaybackQuality, abrStateA, abrEnvA,
      AbrController.DEFAULT_CONFIG]
    all_goals rfl

/-- C1 (amended): whenever `now − lastSwitchTime < switchCooldownPeriod`,
`checkPlaybackQuality` returns "no change" and emits nothing, with NO
exception — the cooldown gate precedes the DroppedFrames strategy check, so
even an emergency downshift outcome is blocked. -/
theorem C1_cooldown_blocks_all (st : AbrControllerState)
    (dfState : DroppedFramesAbrState) (env : AbrEnv)
    (hcool : env.now - st.lastSwitchTime < st.config.switchCooldownPeriod) :
    AbrController.checkPlaybackQuality st dfState env = Except.ok (false, st, dfState, []) := by
  simp [AbrController.checkPlaybackQuality, hcool]
  rfl

/-- C1 witness: the cooldown situation of `C1_counterexample` discharged
through the general theorem. -/
theorem C1_witness :
    abrEnvA.now - abrStateA.lastSwitchTime < abrStateA.config.switchCooldownPeriod ∧
    AbrController.checkPlaybackQuality abrStateA dfStateA abrEnvA =
      Except.ok (false, abrStateA, dfStateA, []) :=
  ⟨by norm_num [abrEnvA, abrStateA, AbrController.DEFAULT_CONFIG],
    C1_cooldown_blocks_all abrStateA dfStateA abrEnvA
      (by norm_num [abrEnvA, abrStateA, AbrController.DEFAULT_CONFIG])⟩

/-- C6 counterexample: invoking the quota handler while
`quotaExceededInProgress` is true is NOT a complete no-op — the
buffered-segments sync at the top of the handler runs before the guard and
drops the stale tracked segment (the sink reports no ranges). -/
theorem C6_counterexample :
    (BufferController.handleQuotaExceeded bcStateC6 10 none).1.bufferedSegments = [] ∧
    bcStateC6.bufferedSegments ≠ [] := by
  constructor
  · norm_num [BufferController.handleQuotaExceeded,
      BufferController.syncSegmentTrackingWithBuffer, bcStateC6, bcBase]
  · norm_num [bcStateC6, bcBase]

/-- Helper: `#removeExcessBufferDataWithTracking` never changes the critical
level. -/
theorem BufferController.removeExcess_criticalLevel (st : BufferControllerState) (t : ℚ) :
    (BufferController.removeExcessBufferDataWithTracking st t).criticalLevel =
      st.criticalLevel := by
  unfold BufferController.removeExcessBufferDataWithTracking
  split <;> rfl

/-- Helper: `#removeExcessBufferDataWithTracking` never changes the buffering
target. -/
theorem BufferController.removeExcess_bufferingTarget (st : BufferControllerState) (t : ℚ) :
    (BufferController.removeExcessBufferDataWithTracking st t).bufferingTarget =
      st.bufferingTarget := by
  unfold BufferController.removeExcessBufferDataWithTracking
  split <;> rfl

/-- Helper: `#resetSegmentPointersAfterQuotaExceeded` never changes the
critical level. -/
theorem BufferController.resetPointers_criticalLevel (st : BufferControllerState) (t : ℚ)
    (rep : Option MediaRepresentation) :
    (BufferController.resetSegmentPointersAfterQuotaExceeded st t rep).criticalLevel =
      st.criticalLevel := by
  unfold BufferController.resetSegmentPointersAfterQuotaExceeded
  rcases rep with _ | r
  · rfl
  · dsimp only
    repeat' split
    all_goals rfl

/-- Helper: `#resetSegmentPointersAfterQuotaExceeded` never changes the
buffering target. -/
theorem BufferController.resetPointers_bufferingTarget (st : BufferControllerState) (t : ℚ)
    (rep : Option MediaRepresentation) :
    (BufferController.resetSegmentPointersAfterQuotaExceeded st t rep).bufferingTarget =
      st.bufferingTarget := by
  unfold BufferController.resetSegmentPointersAfterQuotaExceeded
  rcases rep with _ | r
  · rfl
  · dsimp only
    repeat' split
    all_goals rfl

/-- Helper: `#updateBufferLevel` never changes the critical level. -/
theorem BufferController.updateLevel_criticalLevel (st : BufferControllerState) (t : ℚ) :
    (BufferController.updateBufferLevel st t).1.criticalLevel = st.criticalLevel := by
  unfold BufferController.updateBufferLevel
  split <;> rfl

/-- Helper: `#updateBufferLevel` never changes the buffering target. -/
theorem BufferController.updateLevel_bufferingTarget (st : BufferControllerState) (t : ℚ) :
    (BufferController.updateBufferLevel st t).1.bufferingTarget = st.bufferingTarget := by
  unfold BufferController.updateBufferLevel
  split <;> rfl

/-- C5: every complete run of the quota-exceeded handler (guard clear, sink
present and idle) sets the new critical level to (the existing critical level
if set, otherwise the current buffer level) times the correction factor 0.8,
floored at 10 s AFTER the multiplication, installs it as the new
`bufferingTarget`, and publishes a `BUFFER_TARGET_CHANGED` event carrying
that value. -/
theorem C5_quota_recovery (st : BufferControllerState) (currentTime : ℚ)
    (rep : Option MediaRepresentation)
    (hq : st.quotaExceededInProgress = false)
    (hsb : st.sourceBufferPresent = true)
    (hsu : st.sourceBufferUpdating = false)
    (hcf : st.quotaExceededCorrectionFactor = 8 / 10) :
    (BufferController.handleQuotaExceeded st currentTime rep).1.criticalLevel =
      some (max 10 (st.criticalLevel.getD st.level * (8 / 10))) ∧
    (BufferController.handleQuotaExceeded st currentTime rep).1.bufferingTarget =
      max 10 (st.criticalLevel.getD st.level * (8 / 10)) ∧
    BufferEvent.BUFFER_TARGET_CHANGED (max 10 (st.criticalLevel.getD st.level * (8 / 10))) ∈
      (BufferController.handleQuotaExceeded st currentTime rep).2 := by
  have hgd : (match st.criticalLevel with
      | none => st.level * st.quotaExceededCorrectionFactor
      | some c => c * st.quotaExceededCorrectionFactor) =
      st.criticalLevel.getD st.level * (8 / 10) := by
    rcases st.criticalLevel with _ | c <;> simp [hcf]
  simp only [BufferController.handleQuotaExceeded,
    BufferController.syncSegmentTrackingWithBuffer, hq, hsb, hsu, hgd,
    Bool.false_eq_true, if_false, Bool.not_true, Bool.false_or, Bool.not_false,
    Bool.true_eq_false, if_true]
  refine ⟨?_, ?_, ?_⟩
  · rw [BufferController.updateLevel_criticalLevel,
      BufferController.resetPointers_criticalLevel,
      BufferController.removeExcess_criticalLevel]
  · rw [BufferController.updateLevel_bufferingTarget,
      BufferController.resetPointers_bufferingTarget,
      BufferController.removeExcess_bufferingTarget]
  · simp

/-- C5 witness: quota exceeded at buffer level 70 s with no prior critical
level publishes the new target `max(10, 70 · 0.8) = 56` (spec scenario S3). -/
theorem C5_witness :
    bcStateC5.quotaExceededInProgress = false ∧
    bcStateC5.sourceBufferPresent = true ∧
    bcStateC5.sourceBufferUpdating = false ∧
    bcStateC5.quotaExceededCorrectionFactor = 8 / 10 ∧
    (BufferController.handleQuotaExceeded bcStateC5 10 none).1.criticalLevel = some 56 ∧
    (BufferController.handleQuotaExceeded bcStateC5 10 none).1.bufferingTarget = 56 ∧
    BufferEvent.BUFFER_TARGET_CHANGED 56 ∈
      (BufferController.handleQuotaExceeded bcStateC5 10 none).2 := by
  have h := C5_quota_recovery bcStateC5 10 none rfl rfl rfl rfl
  have h56 : max (10 : ℚ) (bcStateC5.criticalLevel.getD bcStateC5.level * (8 / 10)) = 56 := by
    norm_num [bcStateC5, bcBase]
  rw [h56] at h
  exact ⟨rfl, rfl, rfl, rfl, h.1, h.2.1, h.2.2⟩

/-- C6 (amended): invoking the quota-exceeded handler while
`quotaExceededInProgress` is true leaves everything unchanged EXCEPT that the
buffered-segments sync at the top of the handler (which runs before the
guard) may drop tracked segments that no longer overlap any buffered range
of the sink; the queues, pointers, critical level and buffering target are
untouched and no event is published. -/
theorem C6_guarded_call_only_syncs (st : BufferControllerState) (currentTime : ℚ)
    (rep : Option MediaRepresentation) (h : st.quotaExceededInProgress = true) :
    BufferController.handleQuotaExceeded st currentTime rep =
      (BufferController.syncSegmentTrackingWithBuffer st, []) ∧
    (BufferController.handleQuotaExceeded st currentTime rep).1.downloadPipeline =
      st.downloadPipeline ∧
    (BufferController.handleQuotaExceeded st currentTime rep).1.appendQueue =
      st.appendQueue ∧
    (BufferController.handleQuotaExceeded st currentTime rep).1.replacementQueue =
      st.replacementQueue ∧
    (BufferController.handleQuotaExceeded st currentTime rep).1.replacementsInProgress =
      st.replacementsInProgress ∧
    (BufferController.handleQuotaExceeded st currentTime rep).1.nextSegmentToDownload =
      st.nextSegmentToDownload ∧
    (BufferController.handleQuotaExceeded st currentTime rep).1.nextSegmentToAppend =
      st.nextSegmentToAppend ∧
    (BufferController.handleQuotaExceeded st currentTime rep).1.criticalLevel =
      st.criticalLevel ∧
    (BufferController.handleQuotaExceeded st currentTime rep).1.bufferingTarget =
      st.bufferingTarget ∧
    (BufferController.handleQuotaExceeded st currentTime rep).2 = [] := by
  have hmain : BufferController.handleQuotaExceeded st currentTime rep =
      (BufferController.syncSegmentTrackingWithBuffer st, []) := by
    simp only [BufferController.handleQuotaExceeded,
      BufferController.syncSegmentTrackingWithBuffer, h, if_true]
  rw [hmain]
  exact ⟨rfl, rfl, rfl, rfl, rfl, rfl, rfl, rfl, rfl, rfl⟩

/-- C6 witness: the guarded-call theorem applied to the state of
`C6_counterexample`. -/
theorem C6_witness :
    bcStateC6.quotaExceededInProgress = true ∧
    BufferController.handleQuotaExceeded bcStateC6 10 none =
      (BufferController.syncSegmentTrackingWithBuffer bcStateC6, []) :=
  ⟨rfl, (C6_guarded_call_only_syncs bcStateC6 10 none rfl).1⟩

/-- C2 counterexample: a stall-candidate sample taken while the playhead
position is NOT buffered and a download covers that position
(`isPositionBuffered` answers false, `isDownloadingForPosition` answers
true) is NOT suppressed — it is recorded in the stall history and counts
toward confirmation (consecutiveStallChecks becomes 1). -/
theorem C2_counterexample :
    stallEnvNotBuffered.isPositionBuffered.map
        (fun f => f stallEnvNotBuffered.currentTime) = some false ∧
    stallEnvNotBuffered.isDownloadingForPosition.map
        (fun f => f stallEnvNotBuffered.currentTime) = some true ∧
    (StallDetector.detectStall stallStateA stallEnvNotBuffered).2.consecutiveStallChecks = 1 ∧
    (StallDetector.detectStall stallStateA stallEnvNotBuffered).2.stallHistory = [true] := by
  refine ⟨rfl, rfl, ?_, ?_⟩ <;>
    norm_num [StallDetector.detectStall, StallDetector.shouldIgnoreStall,
      StallDetector.updateStallHistory, StallDetector.GRACE_PERIODS,
      StallDetector.CHECK_INTERVAL_MS, StallDetector.STALL_THRESHOLD_MS,
      StallDetector.historySize, StallDetector.NETWORK_LOADING,
      stallStateA, stallEnvNotBuffered]

/-- C2 (amended): for every stall-candidate sample (player not
paused/seeking/ended, past the context grace period, a ≥ 100 ms sample with
playback progress below 0.01 s), if the current playhead position IS
buffered and a download (per the injected `isDownloadingForPosition`
callback, which checks active downloads and the append queue) covers that
position, the candidate is suppressed and does not count toward stall
confirmation. -/
theorem C2_buffered_download_suppresses (st : StallDetectorState) (env : StallVideoEnv)
    (f g : ℚ → Bool)
    (hb : env.isPositionBuffered = some f) (hf : f env.currentTime = true)
    (hd : env.isDownloadingForPosition = some g) (hg : g env.currentTime = true)
    (hnp : env.paused = false) (hns : env.seeking = false) (hne : env.ended = false)
    (hgrace : ¬(env.now - st.contextStartTime <
      StallDetector.GRACE_PERIODS st.currentContext))
    (hdelta : env.now - st.lastCheckTime ≥ StallDetector.CHECK_INTERVAL_MS)
    (hstall : env.currentTime - st.lastPlaybackTime < 1 / 100) :
    (StallDetector.detectStall st env).1 = false ∧
    (StallDetector.detectStall st env).2.consecutiveStallChecks = 0 := by
  have hign : StallDetector.shouldIgnoreStall
      { st with lastReadyState := env.readyState } env env.currentTime = true := by
    simp [StallDetector.shouldIgnoreStall, hb, hf, hd, hg]
  constructor <;>
    simp [StallDetector.detectStall, hnp, hns, hne, hgrace, hdelta, hstall, hign]

/-- C2 witness: the suppression theorem at a concrete candidate sample whose
position is buffered while a download covers it. -/
theorem C2_witness :
    stallEnvBuffered.isPositionBuffered = some (fun _ => true) ∧
    stallEnvBuffered.isDownloadingForPosition = some (fun _ => true) ∧
    (StallDetector.detectStall stallStateA stallEnvBuffered).1 = false ∧
    (StallDetector.detectStall stallStateA stallEnvBuffered).2.consecutiveStallChecks = 0 := by
  have h := C2_buffered_download_suppresses stallStateA stallEnvBuffered
    (fun _ => true) (fun _ => true) rfl rfl rfl rfl rfl rfl rfl
    (by norm_num [stallEnvBuffered, stallEnvNotBuffered, stallStateA,
      StallDetector.GRACE_PERIODS])
    (by norm_num [stallEnvBuffered, stallEnvNotBuffered, stallStateA,
      StallDetector.CHECK_INTERVAL_MS])
    (by norm_num [stallEnvBuffered, stallEnvNotBuffered, stallStateA])
  exact ⟨rfl, rfl, h.1, h.2⟩

/-- C9: evaluation of `#findReplaceableSegments` at the failing input.  The
representation's segments last 4 s each, so the claim's threshold is
`now + 4 · 1.5 = now + 6`; with the playhead at 3 s the buffered low-bitrate
segment 42 starts at 8 s < 3 + 6 = 9 s and should NOT be a candidate per the
claim, yet the code (which hardcodes `segmentDuration = 3`, threshold
`3 + 4.5 = 7.5`) selects it. -/
theorem C9_code_eval :
    (BufferController.findReplaceableSegments bcStateC9 3 (some rep4s)).1 = [segC9] ∧
    (rep4s.segmentIndex.all fun r => decide (r.endTime - r.startTime = 4)) = true ∧
    segC9.startTime < 3 + 4 * (3 / 2) := by
  refine ⟨?_, by norm_num [rep4s], by norm_num [segC9]⟩
  norm_num [BufferController.findReplaceableSegments, bcStateC9, bcBase, segC9,
    jsSortBy, jsInsertBy]

/-- Helper: the BOLA utility vector of the 1 kbps / 2 kbps ladder is
`[1, ln 2 + 1]`. -/
theorem bolaUtilities_repsC3 :
    BufferAbr.bolaUtilities repsC3 = [1, Real.log 2 + 1] := by
  have h2000 : Real.log (2000 : ℝ) = Real.log 2 + Real.log 1000 := by
    rw [show (2000 : ℝ) = 2 * 1000 by norm_num]
    exact Real.log_mul (by norm_num) (by norm_num)
  norm_num [BufferAbr.bolaUtilities, repsC3, h2000]

/-- Helper: the BOLA `gp` gain of the 1 kbps / 2 kbps ladder. -/
theorem bolaGp_repsC3 :
    BufferAbr.bolaGp BufferAbr.defaultConfig repsC3 = 5 / 2 * Real.log 2 := by
  rw [BufferAbr.bolaGp, bolaUtilities_repsC3]
  norm_num [BufferAbr.bolaBufferTime, BufferAbr.defaultConfig,
    BufferAbr.MINIMUM_BUFFER_PER_BITRATE_LEVEL, repsC3, max_def]
  ring

/-- Helper: the BOLA `vp` gain of the 1 kbps / 2 kbps ladder. -/
theorem bolaVp_repsC3 :
    BufferAbr.bolaVp BufferAbr.defaultConfig repsC3 = 4 / Real.log 2 := by
  have hL0 : Real.log 2 ≠ 0 := ne_of_gt (Real.log_pos (by norm_num))
  rw [BufferAbr.bolaVp, bolaGp_repsC3]
  norm_num [BufferAbr.defaultConfig]
  field_simp
  ring

/-- C3: evaluation of the minimum-buffer closed form at the failing input.
For the initialized BolaState over bitrates [1000, 2000] (minBufferLevel 10,
so `gp = (5/2)·ln 2` and `vp = 4/ln 2`), the BOLA scores of representations
1 and 0 are equal at buffer level 6, yet `#getMinBufferLevelForRepresentation`
returns `6 + 4/ln 2 ≈ 11.77` — the equal-score level plus `vp` — because the
source formula omits the `− 1` term that its own comment (`Score = (Vp *
(utility + gp - 1) - buffer) / bitrate`) prescribes. -/
theorem C3_code_eval :
    BufferAbr.bolaScore bolaStateC3 1 6 = BufferAbr.bolaScore bolaStateC3 0 6 ∧
    BufferAbr.getMinBufferLevelForRepresentation bolaStateC3
        { id := "r1", bitrate := 2000 } = 6 + 4 / Real.log 2 ∧
    BufferAbr.getMinBufferLevelForRepresentation bolaStateC3
        { id := "r1", bitrate := 2000 } ≠ 6 := by
  have hL : (0 : ℝ) < Real.log 2 := Real.log_pos (by norm_num)
  have hL0 : Real.log 2 ≠ 0 := ne_of_gt hL
  have hu : bolaStateC3.utilities = [1, Real.log 2 + 1] := bolaUtilities_repsC3
  have hgp : bolaStateC3.gp = 5 / 2 * Real.log 2 := bolaGp_repsC3
  have hvp : bolaStateC3.vp = 4 / Real.log 2 := bolaVp_repsC3
  have hreps : bolaStateC3.representations = repsC3 := rfl
  have hne : ¬("r0" : String) = "r1" := by decide
  have hmin : BufferAbr.getMinBufferLevelForRepresentation bolaStateC3
      { id := "r1", bitrate := 2000 } = 6 + 4 / Real.log 2 := by
    have hmax : ∀ x : ℝ, x = 6 + 4 / Real.log 2 → max 0 x = 6 + 4 / Real.log 2 := by
      intro x hx
      rw [hx, max_eq_right (by positivity)]
    simp only [BufferAbr.getMinBufferLevelForRepresentation, hreps, repsC3]
    norm_num [hu, hgp, hvp, hne, undefinedRep]
    apply hmax
    field_simp
    ring
  refine ⟨?_, hmin, ?_⟩
  · simp only [BufferAbr.bolaScore, hu, hgp, hvp, hreps, repsC3]
    norm_num
    field_simp
    ring
  · rw [hmin]
    intro h
    have h4 : 4 / Real.log 2 = 0 := by linarith
    exact div_ne_zero (by norm_num) hL0 h4

/-- Helper: the BOLA utility vector of the 16-step power-of-two ladder is
`[1, ln 2 + 1, 2·ln 2 + 1, …, 15·ln 2 + 1]`. -/
theorem bolaUtilities_repsC4 :
    BufferAbr.bolaUtilities repsC4 =
      [1, Real.log 2 + 1, 2 * Real.log 2 + 1, 3 * Real.log 2 + 1, 4 * Real.log 2 + 1,
        5 * Real.log 2 + 1, 6 * Real.log 2 + 1, 7 * Real.log 2 + 1, 8 * Real.log 2 + 1,
        9 * Real.log 2 + 1, 10 * Real.log 2 + 1, 11 * Real.log 2 + 1,
        12 * Real.log 2 + 1, 13 * Real.log 2 + 1, 14 * Real.log 2 + 1,
        15 * Real.log 2 + 1] := by
  have hpow : ∀ n : ℕ, ∀ x : ℝ, x = 2 ^ n → Real.log x = n * Real.log 2 := by
    intro n x hx
    rw [hx, Real.log_pow]
  have h4 := hpow 2 4 (by norm_num)
  have h8 := hpow 3 8 (by norm_num)
  have h16 := hpow 4 16 (by norm_num)
  have h32 := hpow 5 32 (by norm_num)
  have h64 := hpow 6 64 (by norm_num)
  have h128 := hpow 7 128 (by norm_num)
  have h256 := hpow 8 256 (by norm_num)
  have h512 := hpow 9 512 (by norm_num)
  have h1024 := hpow 10 1024 (by norm_num)
  have h2048 := hpow 11 2048 (by norm_num)
  have h4096 := hpow 12 4096 (by norm_num)
  have h8192 := hpow 13 8192 (by norm_num)
  have h16384 := hpow 14 16384 (by norm_num)
  have h32768 := hpow 15 32768 (by norm_num)
  norm_num [BufferAbr.bolaUtilities, repsC4, Real.log_one, h4, h8, h16, h32, h64,
    h128, h256, h512, h1024, h2048, h4096, h8192, h16384, h32768]

/-- Helper: the BOLA `gp` gain of the 16-step ladder
(`bufferTime = max(12, 10 + 2·16) = 42`). -/
theorem bolaGp_repsC4 :
    BufferAbr.bolaGp BufferAbr.defaultConfig repsC4 = 75 / 16 * Real.log 2 := by
  rw [BufferAbr.bolaGp, bolaUtilities_repsC4]
  norm_num [BufferAbr.bolaBufferTime, BufferAbr.defaultConfig,
    BufferAbr.MINIMUM_BUFFER_PER_BITRATE_LEVEL, repsC4, max_def]
  ring

/-- Helper: the BOLA `vp` gain of the 16-step ladder. -/
theorem bolaVp_repsC4 :
    BufferAbr.bolaVp BufferAbr.defaultConfig repsC4 = 32 / (15 * Real.log 2) := by
  have hL0 : Real.log 2 ≠ 0 := ne_of_gt (Real.log_pos (by norm_num))
  rw [BufferAbr.bolaVp, bolaGp_repsC4]
  norm_num [BufferAbr.defaultConfig]
  field_simp
  ring

/-- Helper: the minimum buffer level the source computes for the top
representation of the 16-step ladder: `566/15 + 32/(15·ln 2)` ≈ 40.8 s. -/
theorem minBufferLevel_q15 :
    BufferAbr.getMinBufferLevelForRepresentation bolaStateC4
      { id := "q15", bitrate := 32768 } = 566 / 15 + 32 / (15 * Real.log 2) := by
  have hL : (0 : ℝ) < Real.log 2 := Real.log_pos (by norm_num)
  have hL0 : Real.log 2 ≠ 0 := ne_of_gt hL
  have hreps : bolaStateC4.representations = repsC4 := rfl
  have hu : bolaStateC4.utilities =
      [1, Real.log 2 + 1, 2 * Real.log 2 + 1, 3 * Real.log 2 + 1, 4 * Real.log 2 + 1,
        5 * Real.log 2 + 1, 6 * Real.log 2 + 1, 7 * Real.log 2 + 1, 8 * Real.log 2 + 1,
        9 * Real.log 2 + 1, 10 * Real.log 2 + 1, 11 * Real.log 2 + 1,
        12 * Real.log 2 + 1, 13 * Real.log 2 + 1, 14 * Real.log 2 + 1,
        15 * Real.log 2 + 1] := bolaUtilities_repsC4
  have hgp : bolaStateC4.gp = 75 / 16 * Real.log 2 := bolaGp_repsC4
  have hvp : bolaStateC4.vp = 32 / (15 * Real.log 2) := bolaVp_repsC4
  have hidx : (repsC4.findIdx? fun r => decide (r.id = "q15")) = some 15 := by decide
  have hmax : ∀ x : ℝ, x = 566 / 15 + 32 / (15 * Real.log 2) →
      max 0 x = 566 / 15 + 32 / (15 * Real.log 2) := by
    intro x hx
    rw [hx, max_eq_right (by positivity)]
  simp only [BufferAbr.getMinBufferLevelForRepresentation, hreps, hidx]
  norm_num [hu, hgp, hvp, repsC4, undefinedRep]
  apply hmax
  field_simp
  ring

/-- Helper: with a 36000 bps cap the throughput loop selects the top
representation of the ladder. -/
theorem selectForThroughput_repsC4 :
    BufferAbr.selectForThroughputGo (repsC4.headD undefinedRep) 36000 repsC4 =
      { id := "q15", bitrate := 32768 } := by decide

/-- Helper: the placeholder the STARTUP path of the BOLA controller assigns
for the 16-step ladder at buffer level 10 s and estimated throughput
40000 bps. -/
theorem placeholder_after_startup_choose :
    (BufferAbr.chooseThroughputBasedRepresentation BufferAbr.defaultConfig bolaStateC4 10
        (some 40000)).2.placeholderBuffer = 416 / 15 + 32 / (15 * Real.log 2) := by
  have hL : (0 : ℝ) < Real.log 2 := Real.log_pos (by norm_num)
  have hmax : ∀ x : ℝ, x = 416 / 15 + 32 / (15 * Real.log 2) →
      max 0 x = 416 / 15 + 32 / (15 * Real.log 2) := by
    intro x hx
    rw [hx, max_eq_right (by positivity)]
  simp only [BufferAbr.chooseThroughputBasedRepresentation]
  rw [show (40000 : ℚ) * BufferAbr.THROUGHPUT_SAFETY_FACTOR = 36000 by
    norm_num [BufferAbr.THROUGHPUT_SAFETY_FACTOR]]
  rw [show bolaStateC4.representations = repsC4 from rfl,
    selectForThroughput_repsC4, minBufferLevel_q15]
  norm_num
  apply hmax
  ring

/-- C4 counterexample: after `setRepresentations` with the 16-step ladder
(a reachable fresh initialisation) and one STARTUP-mode `choose()` at buffer
level 10 s and estimated throughput 40000 bps, the placeholder buffer is
`416/15 + 32/(15·ln 2) ≈ 30.8 s`, which EXCEEDS
`maxBufferLevel − bufferTarget = 90 − 60 = 30`: the STARTUP path assigns the
placeholder without applying the cap. -/
theorem C4_counterexample :
    BufferAbr.setRepresentations BufferAbr.defaultConfig none repsC4 10 0 =
      Except.ok bolaStateC4 ∧
    BufferAbr.chooseRepresentation BufferAbr.defaultConfig (some bolaStateC4) 10
        (some 40000) 0 =
      Except.ok (BufferAbr.chooseThroughputBasedRepresentation BufferAbr.defaultConfig
        bolaStateC4 10 (some 40000)) ∧
    ¬((BufferAbr.chooseThroughputBasedRepresentation BufferAbr.defaultConfig bolaStateC4
          10 (some 40000)).2.placeholderBuffer ≤
        ((BufferAbr.defaultConfig.maxBufferLevel -
            BufferAbr.defaultConfig.bufferTarget : ℚ) : ℝ)) := by
  refine ⟨rfl, rfl, ?_⟩
  rw [placeholder_after_startup_choose]
  have hL : (0 : ℝ) < Real.log 2 := Real.log_pos (by norm_num)
  have h17 : Real.log 2 < 16 / 17 :=
    lt_trans Real.log_two_lt_d9 (by norm_num)
  have hkey : (34 : ℝ) / 15 < 32 / (15 * Real.log 2) := by
    rw [div_lt_div_iff₀ (by norm_num) (by positivity)]
    nlinarith
  rw [not_le]
  have hcast : ((BufferAbr.defaultConfig.maxBufferLevel -
      BufferAbr.defaultConfig.bufferTarget : ℚ) : ℝ) = 30 := by
    norm_num [BufferAbr.defaultConfig]
  rw [hcast]
  linarith

/-- Helper: `#checkPlaceholderBufferLimit` keeps the placeholder within
`[0, maxBufferLevel − bufferTarget]` whenever it was non-negative and the cap
itself is non-negative. -/
theorem checkPlaceholderBufferLimit_bounds (cfg : BufferAbrConfig) (st : BolaState)
    (hcap : (0 : ℝ) ≤ ((cfg.maxBufferLevel - cfg.bufferTarget : ℚ) : ℝ))
    (hp : 0 ≤ st.placeholderBuffer) :
    0 ≤ (BufferAbr.checkPlaceholderBufferLimit cfg st).placeholderBuffer ∧
    (BufferAbr.checkPlaceholderBufferLimit cfg st).placeholderBuffer ≤
      ((cfg.maxBufferLevel - cfg.bufferTarget : ℚ) : ℝ) := by
  unfold BufferAbr.checkPlaceholderBufferLimit
  dsimp only
  split
  · exact ⟨hcap, le_refl _⟩
  · next h => exact ⟨hp, not_lt.mp h⟩

/-- C4 (amended): the placeholder buffer is never negative, and the upper
bound `placeholderBuffer ≤ maxBufferLevel − bufferTarget` is (re)established
by the steady-state placeholder update (`#updatePlaceholderBuffer`, which
ends every STEADY_STATE `choose()`'s accounting with the cap); by the seek
and buffer-empty handlers (which zero it); and is untouched by the segment
lifecycle hooks — but the STARTUP `choose()` path only guarantees
non-negativity: it sets `placeholderBuffer = max(0, minBufferForRep −
bufferLevel)` without the cap and can exceed `maxBufferLevel − bufferTarget`
(see the counterexample). -/
theorem C4_placeholder_bounds (cfg : BufferAbrConfig) (st : BolaState)
    (nowMs bufferLevel : ℚ) (throughputBps : Option ℚ)
    (segmentRef : SegmentReference) (optRef : Option SegmentReference) (isRepl : Bool)
    (hcap : (0 : ℝ) ≤ ((cfg.maxBufferLevel - cfg.bufferTarget : ℚ) : ℝ))
    (hp : 0 ≤ st.placeholderBuffer) :
    (0 ≤ (BufferAbr.updatePlaceholderBuffer cfg st nowMs).placeholderBuffer ∧
      (BufferAbr.updatePlaceholderBuffer cfg st nowMs).placeholderBuffer ≤
        ((cfg.maxBufferLevel - cfg.bufferTarget : ℚ) : ℝ)) ∧
    0 ≤ (BufferAbr.chooseThroughputBasedRepresentation cfg st bufferLevel
        throughputBps).2.placeholderBuffer ∧
    (BufferAbr.clearBolaStateOnSeek st).placeholderBuffer = 0 ∧
    (BufferAbr.onBufferEmpty st nowMs).placeholderBuffer = 0 ∧
    (BufferAbr.onSegmentDownloadBegin st segmentRef nowMs).placeholderBuffer =
      st.placeholderBuffer ∧
    (BufferAbr.onSegmentDownloadEnd st optRef isRepl nowMs).placeholderBuffer =
      st.placeholderBuffer := by
  refine ⟨?_, ?_, rfl, ?_, ?_, ?_⟩
  · unfold BufferAbr.updatePlaceholderBuffer
    apply checkPlaceholderBufferLimit_bounds cfg _ hcap
    have : (0 : ℝ) ≤ (match st.lastSegmentFinishTimeMs with
        | some t => max 0 (((nowMs - t : ℚ) : ℝ) * (1 / 1000))
        | none => max 0 (((nowMs - st.lastCallTimeMs : ℚ) : ℝ) * (1 / 1000))) := by
      rcases st.lastSegmentFinishTimeMs with _ | t <;> exact le_max_left 0 _
    exact add_nonneg hp this
  · unfold BufferAbr.chooseThroughputBasedRepresentation
    rcases throughputBps with _ | tp
    · exact hp
    · dsimp only
      repeat' split
      all_goals exact le_max_left 0 _
  · unfold BufferAbr.onBufferEmpty
    dsimp only
    split <;> rfl
  · unfold BufferAbr.onSegmentDownloadBegin
    dsimp only
    repeat' split
    all_goals rfl
  · unfold BufferAbr.onSegmentDownloadEnd
    dsimp only
    repeat' split
    all_goals rfl

/-- C4 witness: the bounds theorem applied to the freshly initialised
two-representation BOLA state with the default configuration. -/
theorem C4_witness :
    ((0 : ℝ) ≤ ((BufferAbr.defaultConfig.maxBufferLevel -
        BufferAbr.defaultConfig.bufferTarget : ℚ) : ℝ)) ∧
    (0 ≤ bolaStateC4w.placeholderBuffer) ∧
    (0 ≤ (BufferAbr.updatePlaceholderBuffer BufferAbr.defaultConfig bolaStateC4w
        5000).placeholderBuffer ∧
      (BufferAbr.updatePlaceholderBuffer BufferAbr.defaultConfig bolaStateC4w
        5000).placeholderBuffer ≤
        ((BufferAbr.defaultConfig.maxBufferLevel -
            BufferAbr.defaultConfig.bufferTarget : ℚ) : ℝ)) ∧
    0 ≤ (BufferAbr.chooseThroughputBasedRepresentation BufferAbr.defaultConfig
        bolaStateC4w 10 (some 40000)).2.placeholderBuffer := by
  have hcap : (0 : ℝ) ≤ ((BufferAbr.defaultConfig.maxBufferLevel -
      BufferAbr.defaultConfig.bufferTarget : ℚ) : ℝ) := by
    norm_num [BufferAbr.defaultConfig]
  have hp : (0 : ℝ) ≤ bolaStateC4w.placeholderBuffer := le_of_eq rfl.symm
  have h := C4_placeholder_bounds BufferAbr.defaultConfig bolaStateC4w 5000 10
    (some 40000) ⟨0, 0, 4⟩ none false hcap hp
  exact ⟨hcap, hp, h.1, h.2.1⟩
